import Mathlib

/-
Verification of the gee-fwi Canadian Fire Weather Index calculator
(package module gee_fwi/FWI.py).

Embedding notes.
* An Earth Engine image is a raster of per-pixel floating-point values and
  every operation used by the calculator (+, -, *, /, min, max, exp, log,
  pow, comparisons, Not) acts pixelwise.  We model a pixel as its
  longitude/latitude coordinate pair (ee.Image.pixelLonLat exposes exactly
  that) and an image as a function from pixels to the reals.
* Each stage of the calculator is therefore embedded by its per-pixel
  action: a real-valued function of the per-pixel values of its input
  rasters, with the formulas transcribed verbatim from the source.  The
  image-level stage is the pointwise lift of that function.
* Comparison operators produce 0/1 masks (eeGt, eeLt, eeLe); ee.Image.Not
  maps 0 to 1 and everything else to 0 (eeNot).  Earth Engine defines
  division by zero to be 0, which agrees with the Lean convention for /.
* Python ** with a fractional constant is ee.Image.pow, embedded as real
  rpow; ** with an integer literal (2 and 8 in this file) is embedded as
  the monoid power, which agrees with rpow on the nonnegative bases at
  which it is ever evaluated.
* The FWICalculator object stores its rasters in ad hoc instance
  attributes that may not exist yet; an attribute that is only set by some
  calls is modelled as an Option field, and reading an absent attribute is
  Python's AttributeError, modelled by PyError.attributeError.  Methods
  that mutate the object are state-passing functions.
* ee.Image.rename only changes band metadata, never pixel values, and is
  dropped from the embedding.
-/

namespace GeeFwi

/-- A pixel, identified by its (longitude, latitude) coordinates. -/
abbrev Px : Type := ℝ × ℝ

/-- A raster: per-pixel real values. -/
abbrev Image : Type := Px → ℝ

/-- ee comparison gt: 1 where b < a, else 0. -/
noncomputable def eeGt (a b : ℝ) : ℝ := if b < a then 1 else 0

/-- ee comparison lt: 1 where a < b, else 0. -/
noncomputable def eeLt (a b : ℝ) : ℝ := if a < b then 1 else 0

/-- ee comparison lte: 1 where a ≤ b, else 0. -/
noncomputable def eeLe (a b : ℝ) : ℝ := if a ≤ b then 1 else 0

/-- ee.Image.Not: 1 where the value is 0, else 0. -/
noncomputable def eeNot (a : ℝ) : ℝ := if a = 0 then 1 else 0

/-- Daily weather observation rasters (FWIInputs): temperature in deg C,
relative humidity in percent, wind speed in kph, 24h rain in mm. -/
structure Inputs where
  temp : Image
  rhum : Image
  wind : Image
  rain : Image

/-- Observation date; only the calendar month (1-12) is ever read by the
calculator (for the seasonal tables). -/
structure Date where
  month : ℕ

namespace FineFuelMoistureCode

/-- Moisture content recovered from yesterday's FFMC (source line 34). -/
noncomputable def m_o (ffmc_prev : ℝ) : ℝ :=
  147.2 * (101.0 - ffmc_prev) / (59.5 + ffmc_prev)

/-- Rain mask: rainfall above 0.5 mm (source line 38). -/
noncomputable def rain_mask (rain : ℝ) : ℝ := eeGt rain 0.5

/-- Negligible-rain mask (source line 39). -/
noncomputable def negligible (rain : ℝ) : ℝ := eeNot (rain_mask rain)

/-- Effective rain (source line 40). -/
noncomputable def r_f (rain : ℝ) : ℝ := rain_mask rain * (rain - 0.5)

/-- Compensation mask for very wet fuel, m_o above 150 (source line 43). -/
noncomputable def comp_mask (ffmc_prev : ℝ) : ℝ := eeGt (m_o ffmc_prev) 150.0

/-- Complement of the compensation mask (source line 44). -/
noncomputable def normal (ffmc_prev : ℝ) : ℝ := eeNot (comp_mask ffmc_prev)

/-- Basic moisture gain from rain (source lines 46-47). -/
noncomputable def delta_m_rain (rain ffmc_prev : ℝ) : ℝ :=
  42.5 * Real.exp (-100.0 / (251 - m_o ffmc_prev)) *
    (1 - Real.exp (-6.93 / r_f rain)) * r_f rain

/-- Corrective term for very wet fuel (source line 48). -/
noncomputable def corrective (rain ffmc_prev : ℝ) : ℝ :=
  0.0015 * (m_o ffmc_prev - 150.0) ^ (2 : ℕ) * r_f rain ^ (0.5 : ℝ)

/-- Moisture change on the compensated branch (source line 50). -/
noncomputable def delta_m_c (rain ffmc_prev : ℝ) : ℝ :=
  delta_m_rain rain ffmc_prev + corrective rain ffmc_prev

/-- Moisture change on the normal branch (source line 51). -/
noncomputable def delta_m_r (rain ffmc_prev : ℝ) : ℝ := delta_m_rain rain ffmc_prev

/-- Moisture change on the negligible-rain branch (source line 52). -/
noncomputable def delta_m_n (rain : ℝ) : ℝ := 0.0 * negligible rain

/-- Blended moisture change (source lines 53-54). -/
noncomputable def delta_m (rain ffmc_prev : ℝ) : ℝ :=
  rain_mask rain * (comp_mask ffmc_prev * delta_m_c rain ffmc_prev +
    normal ffmc_prev * delta_m_r rain ffmc_prev) + delta_m_n rain

/-- Moisture content after rain, clamped at 250 (source line 57). -/
noncomputable def mo (rain ffmc_prev : ℝ) : ℝ :=
  min (m_o ffmc_prev + delta_m rain ffmc_prev) 250.0

/-- Drying equilibrium moisture content (source lines 61-64). -/
noncomputable def E_d (temp rhum : ℝ) : ℝ :=
  0.942 * rhum ^ (0.679 : ℝ) + 11.0 * Real.exp ((rhum - 100) / 10) +
    0.18 * (21.1 - temp) * (1 - Real.exp (-0.115 * rhum))

/-- Wetting equilibrium moisture content (source lines 66-69). -/
noncomputable def E_w (temp rhum : ℝ) : ℝ :=
  0.618 * rhum ^ (0.753 : ℝ) + 10.0 * Real.exp ((rhum - 100) / 10) +
    0.18 * (21.1 - temp) * (1 - Real.exp (-0.115 * rhum))

/-- Log wetting rate factor (source lines 72-74). -/
noncomputable def k_1 (rhum wind : ℝ) : ℝ :=
  0.424 * (1 - ((100 - rhum) / 100) ^ (1.7 : ℝ)) +
    0.0694 * wind ^ (0.5 : ℝ) * (1 - ((100 - rhum) / 100) ^ (8 : ℕ))

/-- Log drying rate factor (source lines 75-77). -/
noncomputable def k_0 (rhum wind : ℝ) : ℝ :=
  0.424 * (1 - (rhum / 100) ^ (1.7 : ℝ)) +
    0.0694 * wind ^ (0.5 : ℝ) * (1 - (rhum / 100) ^ (8 : ℕ))

/-- Log drying rate (source line 78). -/
noncomputable def k_d (temp rhum wind : ℝ) : ℝ :=
  k_0 rhum wind * 0.581 * Real.exp (0.0365 * temp)

/-- Log wetting rate (source line 79). -/
noncomputable def k_w (temp rhum wind : ℝ) : ℝ :=
  k_1 rhum wind * 0.581 * Real.exp (0.0365 * temp)

/-- Drying condition mask (source line 82). -/
noncomputable def drying (temp rhum rain ffmc_prev : ℝ) : ℝ :=
  eeGt (mo rain ffmc_prev) (E_d temp rhum)

/-- Wetting condition mask (source line 83). -/
noncomputable def wetting (temp rhum rain ffmc_prev : ℝ) : ℝ :=
  eeLt (mo rain ffmc_prev) (E_w temp rhum)

/-- No-change mask (source line 84). -/
noncomputable def no_change (temp rhum rain ffmc_prev : ℝ) : ℝ :=
  eeNot (drying temp rhum rain ffmc_prev + wetting temp rhum rain ffmc_prev)

/-- Moisture after drying (source line 87). -/
noncomputable def m_drying (temp rhum wind rain ffmc_prev : ℝ) : ℝ :=
  drying temp rhum rain ffmc_prev *
    (E_d temp rhum + (mo rain ffmc_prev - E_d temp rhum) /
      (10 : ℝ) ^ k_d temp rhum wind)

/-- Moisture after wetting (source line 88). -/
noncomputable def m_wetting (temp rhum wind rain ffmc_prev : ℝ) : ℝ :=
  wetting temp rhum rain ffmc_prev *
    (E_w temp rhum - (E_w temp rhum - mo rain ffmc_prev) /
      (10 : ℝ) ^ k_w temp rhum wind)

/-- Unchanged moisture (source line 89). -/
noncomputable def m_no_change (temp rhum rain ffmc_prev : ℝ) : ℝ :=
  no_change temp rhum rain ffmc_prev * mo rain ffmc_prev

/-- Blended moisture after the drying/wetting phase (source line 90). -/
noncomputable def m (temp rhum wind rain ffmc_prev : ℝ) : ℝ :=
  m_drying temp rhum wind rain ffmc_prev + m_wetting temp rhum wind rain ffmc_prev +
    m_no_change temp rhum rain ffmc_prev

/-- Today's FFMC, clamped at 101 (source lines 93-95). -/
noncomputable def ffmc (temp rhum wind rain ffmc_prev : ℝ) : ℝ :=
  min (59.5 * (250.0 - m temp rhum wind rain ffmc_prev) /
    (147.2 + m temp rhum wind rain ffmc_prev)) 101.0

/-- Image-level FFMC stage (class FineFuelMoistureCode, method compute). -/
noncomputable def computeImg (inputs : Inputs) (ffmc_prev : Image) : Image :=
  fun p => ffmc (inputs.temp p) (inputs.rhum p) (inputs.wind p) (inputs.rain p)
    (ffmc_prev p)

end FineFuelMoistureCode

/-- Month-indexed day length table for latitudes in (33, 90] (source
lines 158-159). -/
def DayLength46N : List ℝ :=
  [6.5, 7.5, 9.0, 12.8, 13.9, 13.9, 12.4, 10.9, 9.4, 8.0, 7.0, 6.0]

/-- Month-indexed day length table for latitudes in (0, 33] (source
lines 160-161). -/
def DayLength20N : List ℝ :=
  [7.9, 8.4, 8.9, 9.5, 9.9, 10.2, 10.1, 9.7, 9.1, 8.6, 8.1, 7.8]

/-- Month-indexed day length table for latitudes in (-30, 0] (source
lines 162-163). -/
def DayLength20S : List ℝ :=
  [10.1, 9.6, 9.1, 8.5, 8.1, 7.8, 7.9, 8.3, 8.9, 9.4, 9.9, 10.2]

/-- Month-indexed day length table for latitudes in (-90, -30] (source
lines 164-165). -/
def DayLength40S : List ℝ :=
  [11.5, 10.5, 9.2, 7.9, 6.8, 6.2, 6.5, 7.4, 8.7, 10.0, 11.2, 11.8]

/-- Month-indexed drying factor table for the northern hemisphere (source
lines 292-293). -/
def LfN : List ℝ :=
  [-1.6, -1.6, -1.6, 0.9, 3.8, 5.8, 6.4, 5.0, 2.4, 0.4, -1.6, -1.6]

/-- Month-indexed drying factor table for the southern hemisphere (source
lines 294-295). -/
def LfS : List ℝ :=
  [6.4, 5.0, 2.4, 0.4, -1.6, -1.6, -1.6, -1.6, -1.6, 0.9, 3.8, 5.8]

namespace DuffMoistureCode

/-- Latitude-banded day length for a month, from the seasonal tables
(method calculate_day_length, source lines 153-180). -/
noncomputable def day_length_table (month : ℕ) (latitude : ℝ) : ℝ :=
  eeLe latitude 90.0 * eeGt latitude 33.0 * (DayLength46N.getD (month - 1) 0) +
    eeLe latitude 33.0 * eeGt latitude 0 * (DayLength20N.getD (month - 1) 0) +
    eeLe latitude 0 * eeGt latitude (-30.0) * (DayLength20S.getD (month - 1) 0) +
    eeLe latitude (-30.0) * eeGt latitude (-90.0) * (DayLength40S.getD (month - 1) 0)

/-- Day length raster: the constant 9.0 in equatorial mode, otherwise the
latitude/month lookup (method get_day_length, source lines 147-151). -/
noncomputable def get_day_length (equatorial : Bool) (month : ℕ) : Image :=
  if equatorial then fun _ => 9.0 else fun p => day_length_table month p.2

/-- Moisture content recovered from yesterday's DMC (source line 184). -/
noncomputable def M_o (dmc_prev : ℝ) : ℝ :=
  20.0 + 280.0 / Real.exp (0.023 * dmc_prev)

/-- Rain mask: rainfall above 1.5 mm (source line 187). -/
noncomputable def rain_mask (rain : ℝ) : ℝ := eeGt rain 1.5

/-- Negligible-rain mask (source line 188). -/
noncomputable def negligible (rain : ℝ) : ℝ := eeNot (rain_mask rain)

/-- Effective rain (source line 189); note it is not masked. -/
noncomputable def r_e (rain : ℝ) : ℝ := 0.92 * rain - 1.27

/-- Piecewise range mask dmc_prev ≤ 33 (source line 192). -/
noncomputable def pw_1 (dmc_prev : ℝ) : ℝ := eeLe dmc_prev 33.0

/-- Piecewise range mask 33 < dmc_prev ≤ 65 (source line 193). -/
noncomputable def pw_2 (dmc_prev : ℝ) : ℝ := eeLe dmc_prev 65.0 * eeGt dmc_prev 33.0

/-- Piecewise range mask dmc_prev > 65 (source line 194). -/
noncomputable def pw_3 (dmc_prev : ℝ) : ℝ := eeGt dmc_prev 65.0

/-- First slope branch (source lines 195-196). -/
noncomputable def b_1 (rain dmc_prev : ℝ) : ℝ :=
  100.0 / (0.5 + 0.3 * dmc_prev) * rain_mask rain * pw_1 dmc_prev

/-- Second slope branch (source lines 197-198). -/
noncomputable def b_2 (rain dmc_prev : ℝ) : ℝ :=
  (14.0 - 1.3 * Real.log dmc_prev) * rain_mask rain * pw_2 dmc_prev

/-- Third slope branch (source lines 199-200). -/
noncomputable def b_3 (rain dmc_prev : ℝ) : ℝ :=
  (6.2 * Real.log dmc_prev - 17.2) * rain_mask rain * pw_3 dmc_prev

/-- Blended slope (source line 201). -/
noncomputable def b (rain dmc_prev : ℝ) : ℝ :=
  b_1 rain dmc_prev + b_2 rain dmc_prev + b_3 rain dmc_prev

/-- Moisture content after rain (source line 204). -/
noncomputable def M_r (rain dmc_prev : ℝ) : ℝ :=
  M_o dmc_prev + 1000.0 * r_e rain / (48.77 + b rain dmc_prev * r_e rain)

/-- DMC after rain on the raining branch, clamped at 0 (source
lines 207-208). -/
noncomputable def P_r (rain dmc_prev : ℝ) : ℝ :=
  max (rain_mask rain * (244.72 - 43.43 * Real.log (M_r rain dmc_prev - 20.0))) 0.0

/-- DMC after rain on the negligible branch (source line 209). -/
noncomputable def P_n (rain dmc_prev : ℝ) : ℝ := negligible rain * dmc_prev

/-- Blended DMC after the raining phase (source line 210). -/
noncomputable def P_prev (rain dmc_prev : ℝ) : ℝ :=
  P_r rain dmc_prev + P_n rain dmc_prev

/-- Drying phase mask: temperature above -1.1 (source line 213). -/
noncomputable def log_drying_rate (temp : ℝ) : ℝ := eeGt temp (-1.1)

/-- Log drying rate (source lines 219-222). -/
noncomputable def K (temp rhum day_length : ℝ) : ℝ :=
  log_drying_rate temp * 1.894 * (temp + 1.1) * (100.0 - rhum) * day_length *
      0.000001 +
    eeNot (log_drying_rate temp) * 0.0

/-- Today's DMC (source lines 225-226). -/
noncomputable def dmc (temp rhum rain dmc_prev day_length : ℝ) : ℝ :=
  P_prev rain dmc_prev + 100.0 * K temp rhum day_length

/-- Image-level DMC stage (class DuffMoistureCode, method compute). -/
noncomputable def computeImg (inputs : Inputs) (dmc_prev : Image)
    (equatorial : Bool) (obs : Date) : Image :=
  fun p => dmc (inputs.temp p) (inputs.rhum p) (inputs.rain p) (dmc_prev p)
    (get_day_length equatorial obs.month p)

end DuffMoistureCode

namespace DroughtCode

/-- Drying factor raster: the constant 1.39 in equatorial mode, otherwise a
hemisphere/month lookup (methods get_drying_factor and
calculate_drying_factor, source lines 277-303). -/
noncomputable def drying_factor_table (month : ℕ) (latitude : ℝ) : ℝ :=
  eeGt latitude 0 * (LfN.getD (month - 1) 0) +
    eeLe latitude 0 * (LfS.getD (month - 1) 0)

/-- Drying factor selection (source lines 277-281). -/
noncomputable def get_drying_factor (equatorial : Bool) (month : ℕ) : Image :=
  if equatorial then fun _ => 1.39 else fun p => drying_factor_table month p.2

/-- Moisture equivalent of yesterday's DC (source line 307). -/
noncomputable def Q_o (dc_prev : ℝ) : ℝ :=
  800.0 * Real.exp (-1 * dc_prev / 400.0)

/-- Rain mask: rainfall above 2.8 mm (source line 310). -/
noncomputable def rain_mask (rain : ℝ) : ℝ := eeGt rain 2.8

/-- Negligible-rain mask (source line 311). -/
noncomputable def negligible (rain : ℝ) : ℝ := eeNot (rain_mask rain)

/-- Effective rain, masked (source line 312). -/
noncomputable def r_d (rain : ℝ) : ℝ := rain_mask rain * (0.83 * rain - 1.27)

/-- Moisture after rain (source line 315). -/
noncomputable def Q_r (rain dc_prev : ℝ) : ℝ := Q_o dc_prev + 3.937 * r_d rain

/-- DC after rain on the raining branch, clamped at 0 (source
lines 318-319). -/
noncomputable def D_rain (rain dc_prev : ℝ) : ℝ :=
  max (rain_mask rain * (400.0 * Real.log (800.0 / Q_r rain dc_prev))) 0.0

/-- DC after rain on the negligible branch (source line 320). -/
noncomputable def D_negligible (rain dc_prev : ℝ) : ℝ := negligible rain * dc_prev

/-- Blended DC after the raining phase (source line 321). -/
noncomputable def D_prev (rain dc_prev : ℝ) : ℝ :=
  D_rain rain dc_prev + D_negligible rain dc_prev

/-- Drying phase mask: temperature above -2.8 (source line 324). -/
noncomputable def drying_phase (temp : ℝ) : ℝ := eeGt temp (-2.8)

/-- Drying term on the warm branch (source lines 330-331). -/
noncomputable def V_d (temp drying_factor : ℝ) : ℝ :=
  (0.36 * (temp + 2.8) + drying_factor) * drying_phase temp

/-- Drying term on the cold branch: the drying factor carries through
(source line 332). -/
noncomputable def V_n (temp drying_factor : ℝ) : ℝ :=
  drying_factor * eeNot (drying_phase temp)

/-- Blended drying term (source line 333). -/
noncomputable def V (temp drying_factor : ℝ) : ℝ :=
  V_d temp drying_factor + V_n temp drying_factor

/-- Today's DC (source lines 336-337). -/
noncomputable def dc (temp rain dc_prev drying_factor : ℝ) : ℝ :=
  D_prev rain dc_prev + 0.5 * V temp drying_factor

/-- Image-level DC stage (class DroughtCode, method compute). -/
noncomputable def computeImg (inputs : Inputs) (dc_prev : Image)
    (equatorial : Bool) (obs : Date) : Image :=
  fun p => dc (inputs.temp p) (inputs.rain p) (dc_prev p)
    (get_drying_factor equatorial obs.month p)

end DroughtCode

namespace InitialSpreadIndex

/-- Wind function (source line 386). -/
noncomputable def f_Wind (wind : ℝ) : ℝ := Real.exp (0.05039 * wind)

/-- Moisture content recovered from today's FFMC (source line 388). -/
noncomputable def m (ffmc : ℝ) : ℝ := 147.2 * (101.0 - ffmc) / (59.5 + ffmc)

/-- Fuel moisture function (source lines 389-390). -/
noncomputable def f_F (ffmc : ℝ) : ℝ :=
  91.9 * Real.exp (-0.1386 * m ffmc) *
    (1.0 + m ffmc ^ (5.31 : ℝ) / (4.93 * 10000000))

/-- Today's ISI (source lines 392-393). -/
noncomputable def isi (wind ffmc : ℝ) : ℝ := 0.208 * f_Wind wind * f_F ffmc

/-- Image-level ISI stage (class InitialSpreadIndex, method compute). -/
noncomputable def computeImg (wind ffmc : Image) : Image :=
  fun p => isi (wind p) (ffmc p)

end InitialSpreadIndex

namespace BuildupIndex

/-- Branch mask dmc ≤ 0.4 dc (source line 432). -/
noncomputable def cond (dmc dc : ℝ) : ℝ := eeLe dmc (0.4 * dc)

/-- Low branch, masked (source lines 435-436). -/
noncomputable def B_1 (dmc dc : ℝ) : ℝ :=
  0.8 * dmc * dc / (dmc + 0.4 * dc) * cond dmc dc

/-- High branch, masked (source lines 437-439). -/
noncomputable def B_2 (dmc dc : ℝ) : ℝ :=
  (dmc - (1.0 - 0.8 * dc / (dmc + 0.4 * dc)) *
      (0.92 + (0.0114 * dmc) ^ (1.7 : ℝ))) * eeNot (cond dmc dc)

/-- Today's BUI (source line 441). -/
noncomputable def bui (dmc dc : ℝ) : ℝ := B_1 dmc dc + B_2 dmc dc

/-- Image-level BUI stage (class BuildupIndex, method compute). -/
noncomputable def computeImg (dmc dc : Image) : Image :=
  fun p => bui (dmc p) (dc p)

end BuildupIndex

namespace FireWeatherIndex

/-- Heat transfer duff factor, for bui above 80 (source line 470). -/
noncomputable def heat_transfer_fD (bui : ℝ) : ℝ :=
  1000.0 / (25.0 + 108.64 * Real.exp (-0.023 * bui))

/-- Normal duff factor (source line 473). -/
noncomputable def normal_fD (bui : ℝ) : ℝ := 0.626 * bui ^ (0.809 : ℝ) + 2.0

/-- Blended duff factor (source lines 484-489). -/
noncomputable def fD (bui : ℝ) : ℝ :=
  eeNot (eeGt bui 80) * normal_fD bui + eeGt bui 80 * heat_transfer_fD bui

/-- Intermediate intensity (source line 491). -/
noncomputable def B (isi bui : ℝ) : ℝ := 0.1 * isi * fD bui

/-- S-scale branch value (source line 496). -/
noncomputable def fwi_s_val (B : ℝ) : ℝ :=
  Real.exp (2.72 * (0.434 * Real.log B) ^ (0.647 : ℝ))

/-- B-scale branch value: the intensity passes through (source line 497). -/
noncomputable def fwi_b_val (B : ℝ) : ℝ := B

/-- Today's FWI: S-scale above B = 1, pass-through otherwise (source
lines 493-498). -/
noncomputable def fwi (isi bui : ℝ) : ℝ :=
  fwi_s_val (B isi bui) * eeGt (B isi bui) 1.0 +
    fwi_b_val (B isi bui) * eeNot (eeGt (B isi bui) 1.0)

/-- Image-level FWI stage (class FireWeatherIndex, method compute). -/
noncomputable def computeImg (isi bui : Image) : Image :=
  fun p => fwi (isi p) (bui p)

end FireWeatherIndex

/-- The attribute names of FWICalculator that are read before having
necessarily been assigned. -/
inductive AttrName where
  | ffmcPrev
  | dmcPrev
  | dcPrev
  | ffmcA
  | dmcA
  | dcA
  | dateA
  deriving DecidableEq

/-- Errors a method call can raise.  attributeError models Python's
AttributeError on reading a missing instance attribute.  missingStateError
is modelled from the spec: the spec's error taxonomy names a
MissingStateError (UninitializedStateError) for advancing an uninitialized
engine, but no such class exists anywhere in the code. -/
inductive PyError where
  | attributeError (a : AttrName)
  | missingStateError
  deriving DecidableEq

/-- The FWICalculator object state.  Option fields model instance
attributes that exist only after certain method calls; the date attribute
is read by update_daily_parameters (source line 629) but is never assigned
by any method, so it is permanently absent. -/
structure FWICalculator where
  obs : Date
  inputs : Inputs
  equatorial : Bool
  ffmc_prev : Option Image
  dmc_prev : Option Image
  dc_prev : Option Image
  ffmc : Option Image
  dmc : Option Image
  dc : Option Image
  isi : Option Image
  bui : Option Image
  fwi : Option Image
  date : Option Date
  date_prev : Option Date

namespace FWICalculator

/-- Constructor (source lines 515-535): stores the date and inputs and
enables equatorial mode; no other attribute exists yet. -/
def mkCalculator (obs : Date) (inputs : Inputs) : FWICalculator :=
  { obs := obs
    inputs := inputs
    equatorial := true
    ffmc_prev := none
    dmc_prev := none
    dc_prev := none
    ffmc := none
    dmc := none
    dc := none
    isi := none
    bui := none
    fwi := none
    date := none
    date_prev := none }

/-- set_initial_codes (source lines 537-555). -/
def set_initial_codes (s : FWICalculator) (f0 d0 c0 : Image) : FWICalculator :=
  { s with ffmc_prev := some f0, dmc_prev := some d0, dc_prev := some c0 }

/-- set_equatorial_mode (source lines 557-570). -/
def set_equatorial_mode (s : FWICalculator) (equatorial : Bool) : FWICalculator :=
  { s with equatorial := equatorial }

/-- compute (source lines 598-613): runs the six stages in dependency
order.  Each calculate step first reads the corresponding previous-day
attribute; if it is absent the call raises AttributeError there, exactly
as the Python attribute lookup does. -/
noncomputable def compute (s : FWICalculator) : Except PyError FWICalculator :=
  match s.ffmc_prev with
  | none => .error (.attributeError .ffmcPrev)
  | some f0 =>
    match s.dmc_prev with
    | none => .error (.attributeError .dmcPrev)
    | some d0 =>
      match s.dc_prev with
      | none => .error (.attributeError .dcPrev)
      | some c0 =>
        let ffmcI := FineFuelMoistureCode.computeImg s.inputs f0
        let dmcI := DuffMoistureCode.computeImg s.inputs d0 s.equatorial s.obs
        let dcI := DroughtCode.computeImg s.inputs c0 s.equatorial s.obs
        let isiI := InitialSpreadIndex.computeImg s.inputs.wind ffmcI
        let buiI := BuildupIndex.computeImg dmcI dcI
        let fwiI := FireWeatherIndex.computeImg isiI buiI
        .ok { s with
          ffmc := some ffmcI
          dmc := some dmcI
          dc := some dcI
          isi := some isiI
          bui := some buiI
          fwi := some fwiI }

/-- The state after a compute call, when it succeeds (otherwise the state
is unchanged, as the raised error aborts before any assignment). -/
noncomputable def computeResult (s : FWICalculator) : FWICalculator :=
  match compute s with
  | .ok t => t
  | .error _ => s

/-- update_daily_parameters (source lines 615-632), with Python statement
granularity: each assignment mutates the object in turn, and reading the
(never assigned) date attribute raises AttributeError, leaving the
mutations already performed in place.  Returns the object state reached
together with the error, if any. -/
def update_daily_parameters (s : FWICalculator) (obs : Date) (inputs : Inputs) :
    FWICalculator × Option PyError :=
  match s.ffmc with
  | none => (s, some (.attributeError .ffmcA))
  | some f =>
    let s1 := { s with ffmc_prev := some f }
    match s1.dmc with
    | none => (s1, some (.attributeError .dmcA))
    | some d =>
      let s2 := { s1 with dmc_prev := some d }
      match s2.dc with
      | none => (s2, some (.attributeError .dcA))
      | some c =>
        let s3 := { s2 with dc_prev := some c }
        match s3.date with
        | none => (s3, some (.attributeError .dateA))
        | some dt =>
          ({ s3 with date_prev := some dt, obs := obs, inputs := inputs }, none)

end FWICalculator

/-- Pixel value of an optional raster attribute (0 if absent). -/
def getImg (o : Option Image) (p : Px) : ℝ :=
  match o with
  | some f => f p
  | none => 0

/-- The classic reference weather observation: 17 deg C, 42 percent
humidity, 25 kph wind, no rain, as spatially constant rasters. -/
noncomputable def refInputs : Inputs :=
  { temp := fun _ => 17
    rhum := fun _ => 42
    wind := fun _ => 25
    rain := fun _ => 0 }

/-- The reference engine: constructed, then given the standard starting
codes FFMC 85, DMC 6, DC 15.  Equatorial mode is the constructor default. -/
noncomputable def refEngine : FWICalculator :=
  FWICalculator.set_initial_codes
    (FWICalculator.mkCalculator { month := 4 } refInputs)
    (fun _ => 85) (fun _ => 6) (fun _ => 15)

/-- The engine state after the reference daily computation. -/
noncomputable def refOut : FWICalculator := FWICalculator.computeResult refEngine

/-- A calculator state as left by a successful daily computation: the six
result attributes exist (here with arbitrary constant rasters), while the
date attribute still does not. -/
noncomputable def egAfter : FWICalculator :=
  { FWICalculator.mkCalculator { month := 5 } refInputs with
    ffmc := some (fun _ => 1)
    dmc := some (fun _ => 2)
    dc := some (fun _ => 3)
    isi := some (fun _ => 4)
    bui := some (fun _ => 5)
    fwi := some (fun _ => 6) }

/-- Degree-7 Taylor polynomial of the exponential, used for certified
numeric bounds. -/
noncomputable def expTaylor8 (t : ℝ) : ℝ :=
  1 + t + t ^ 2 / 2 + t ^ 3 / 6 + t ^ 4 / 24 + t ^ 5 / 120 + t ^ 6 / 720 +
    t ^ 7 / 5040

/- ------------------------------------------------------------------ -/
/- Theorems.                                                           -/
/- ------------------------------------------------------------------ -/

theorem eeGt_of_lt {a b : ℝ} (h : b < a) : eeGt a b = 1 := if_pos h

theorem eeGt_of_le {a b : ℝ} (h : a ≤ b) : eeGt a b = 0 := if_neg (not_lt.mpr h)

theorem eeLt_of_lt {a b : ℝ} (h : a < b) : eeLt a b = 1 := if_pos h

theorem eeLt_of_ge {a b : ℝ} (h : b ≤ a) : eeLt a b = 0 := if_neg (not_lt.mpr h)

theorem eeLe_of_le {a b : ℝ} (h : a ≤ b) : eeLe a b = 1 := if_pos h

theorem eeLe_of_gt {a b : ℝ} (h : b < a) : eeLe a b = 0 := if_neg (not_le.mpr h)

theorem eeNot_zero : eeNot 0 = 1 := if_pos rfl

theorem eeNot_one : eeNot 1 = 0 := if_neg one_ne_zero

/-- The FFMC raining phase contributes no moisture change when the rain
mask is off. -/
theorem ffmc_delta_m_no_rain {rain : ℝ} (h : rain ≤ 0.5) (ffmc_prev : ℝ) :
    FineFuelMoistureCode.delta_m rain ffmc_prev = 0 := by
  unfold FineFuelMoistureCode.delta_m FineFuelMoistureCode.delta_m_n
  have hm : FineFuelMoistureCode.rain_mask rain = 0 := by
    unfold FineFuelMoistureCode.rain_mask
    exact eeGt_of_le h
  rw [hm]
  ring

/-- C9: for every pixel with rainfall at most 0.5 the FFMC raining phase
contributes exactly zero moisture change, so the post-rain moisture is
min(m_o, 250); the unconditional evaluations on the masked-out rain branch
(the division by the zero effective rain inside exp, the square root) are
multiplied away by the mask and never reach the blended output. -/
theorem c9_rain_mask_no_leak (rain ffmc_prev : ℝ) (h : rain ≤ 0.5) :
    FineFuelMoistureCode.delta_m rain ffmc_prev = 0 ∧
    FineFuelMoistureCode.mo rain ffmc_prev =
      min (FineFuelMoistureCode.m_o ffmc_prev) 250 := by
  refine ⟨ffmc_delta_m_no_rain h ffmc_prev, ?_⟩
  unfold FineFuelMoistureCode.mo
  rw [ffmc_delta_m_no_rain h ffmc_prev, add_zero]
  norm_num

/-- Witness for C9 at the concrete reference pixel values. -/
theorem c9_witness :
    (0 : ℝ) ≤ 0.5 ∧
    (FineFuelMoistureCode.delta_m 0 85 = 0 ∧
      FineFuelMoistureCode.mo 0 85 = min (FineFuelMoistureCode.m_o 85) 250) :=
  ⟨by norm_num, c9_rain_mask_no_leak 0 85 (by norm_num)⟩

/-- C3: today's FFMC is clamped to at most 101, and the post-rain moisture
content is min(m_o + delta_m, 250), hence never exceeds 250; this holds for
every weather input and every previous FFMC value. -/
theorem c3_ffmc_clamps (temp rhum wind rain ffmc_prev : ℝ) :
    FineFuelMoistureCode.ffmc temp rhum wind rain ffmc_prev ≤ 101 ∧
    FineFuelMoistureCode.mo rain ffmc_prev =
      min (FineFuelMoistureCode.m_o ffmc_prev +
        FineFuelMoistureCode.delta_m rain ffmc_prev) 250 ∧
    FineFuelMoistureCode.mo rain ffmc_prev ≤ 250 := by
  refine ⟨?_, ?_, ?_⟩
  · exact le_trans (min_le_right _ _) (by norm_num)
  · unfold FineFuelMoistureCode.mo
    norm_num
  · exact le_trans (min_le_right _ _) (by norm_num)

/-- C6: the DC drying term is 0.36 (temp + 2.8) + drying factor on the warm
branch and exactly the drying factor (not zero) on the cold branch, and in
both cases today's DC is the post-rain DC plus half the drying term. -/
theorem c6_dc_drying_term (temp rain dc_prev drying_factor : ℝ) :
    (-2.8 < temp →
      DroughtCode.V temp drying_factor = 0.36 * (temp + 2.8) + drying_factor) ∧
    (temp ≤ -2.8 → DroughtCode.V temp drying_factor = drying_factor) ∧
    DroughtCode.dc temp rain dc_prev drying_factor =
      DroughtCode.D_prev rain dc_prev + 0.5 * DroughtCode.V temp drying_factor := by
  refine ⟨?_, ?_, rfl⟩
  · intro h
    unfold DroughtCode.V DroughtCode.V_d DroughtCode.V_n DroughtCode.drying_phase
    rw [eeGt_of_lt h, eeNot_one]
    ring
  · intro h
    unfold DroughtCode.V DroughtCode.V_d DroughtCode.V_n DroughtCode.drying_phase
    rw [eeGt_of_le h, eeNot_zero]
    ring

/-- Witness for C6, exercising both temperature branches. -/
theorem c6_witness :
    (-2.8 < (17 : ℝ) ∧ DroughtCode.V 17 1.39 = 0.36 * (17 + 2.8) + 1.39) ∧
    ((-5 : ℝ) ≤ -2.8 ∧ DroughtCode.V (-5) 1.39 = 1.39) :=
  ⟨⟨by norm_num, (c6_dc_drying_term 17 0 15 1.39).1 (by norm_num)⟩,
    ⟨by norm_num, (c6_dc_drying_term (-5) 0 15 1.39).2.1 (by norm_num)⟩⟩

/-- C7: the FWI scale seam is continuous: at B = 1 the S-scale branch
formula evaluates to exactly 1, the same value the pass-through branch
yields. -/
theorem c7_fwi_seam_continuous :
    FireWeatherIndex.fwi_s_val 1 = 1 ∧ FireWeatherIndex.fwi_b_val 1 = 1 := by
  constructor
  · unfold FireWeatherIndex.fwi_s_val
    rw [Real.log_one, mul_zero, Real.zero_rpow (by norm_num), mul_zero,
      Real.exp_zero]
  · rfl

/-- C8: at a pixel with dmc = 0 and dc = 0 the BUI branch mask is
(trivially) on, the two masked branch rasters agree (both are 0, the low
branch evaluating 0/0 to 0 under the Earth Engine division convention), and
the blended BUI is 0. -/
theorem c8_bui_zero_pixel :
    BuildupIndex.cond 0 0 = 1 ∧ BuildupIndex.B_1 0 0 = 0 ∧
    BuildupIndex.B_2 0 0 = 0 ∧ BuildupIndex.bui 0 0 = 0 ∧
    (0 : ℝ) + 0.4 * 0 = 0 := by
  have hc : BuildupIndex.cond 0 0 = 1 := by
    unfold BuildupIndex.cond
    exact eeLe_of_le (by norm_num)
  have h1 : BuildupIndex.B_1 0 0 = 0 := by
    unfold BuildupIndex.B_1
    norm_num
  have h2 : BuildupIndex.B_2 0 0 = 0 := by
    unfold BuildupIndex.B_2
    rw [hc, eeNot_one]
    ring
  refine ⟨hc, h1, h2, ?_, by norm_num⟩
  unfold BuildupIndex.bui
  rw [h1, h2]
  norm_num

/-- C10: every calculator is constructed with equatorial mode on, and in
equatorial mode the DMC day length raster is the constant 9.0 and the DC
drying factor raster is the constant 1.39 at every pixel, for every month
and latitude: the seasonal lookup tables are bypassed. -/
theorem c10_equatorial_default (obs : Date) (inputs : Inputs) (p : Px) :
    (FWICalculator.mkCalculator obs inputs).equatorial = true ∧
    DuffMoistureCode.get_day_length
      (FWICalculator.mkCalculator obs inputs).equatorial obs.month p = 9 ∧
    DroughtCode.get_drying_factor
      (FWICalculator.mkCalculator obs inputs).equatorial obs.month p = 1.39 := by
  refine ⟨rfl, ?_, ?_⟩
  · simp only [DuffMoistureCode.get_day_length, FWICalculator.mkCalculator]
    norm_num
  · simp only [DroughtCode.get_drying_factor, FWICalculator.mkCalculator]
    norm_num

/-- C4 counterexample: advancing a freshly constructed engine (initial
codes never set) fails with AttributeError on ffmc_prev, which is not the
MissingStateError the claim requires. -/
theorem c4_counterexample :
    FWICalculator.compute (FWICalculator.mkCalculator { month := 4 } refInputs) =
      Except.error (PyError.attributeError AttrName.ffmcPrev) ∧
    PyError.attributeError AttrName.ffmcPrev ≠ PyError.missingStateError :=
  ⟨rfl, by decide⟩

/-- C4 amended: calling the daily computation before set_initial_codes
fails, but with Python's AttributeError for the missing ffmc_prev
attribute (no MissingStateError class exists in the code). -/
theorem c4_amended (obs : Date) (inputs : Inputs) :
    FWICalculator.compute (FWICalculator.mkCalculator obs inputs) =
      Except.error (PyError.attributeError AttrName.ffmcPrev) := rfl

/-- C5 (code bug): after a successful daily computation the state held by
the engine has the six result attributes and still no date attribute, and
update_daily_parameters then raises AttributeError on reading self.date -
but only after having already overwritten ffmc_prev, dmc_prev and dc_prev,
and before installing the new observation date and inputs: the partial
update is visible, contradicting the claimed atomic replacement. -/
theorem c5_partial_update (s : FWICalculator) (obs2 : Date) (inputs2 : Inputs)
    (f d c : Image) (hf : s.ffmc = some f) (hd : s.dmc = some d)
    (hc : s.dc = some c) (hdate : s.date = none) :
    FWICalculator.update_daily_parameters s obs2 inputs2 =
      ({ s with ffmc_prev := some f, dmc_prev := some d, dc_prev := some c },
        some (PyError.attributeError AttrName.dateA)) := by
  obtain ⟨obs, inputs, eq, fp, dp, cp, ff, dm, dcf, isf, buf, fwf, da, dap⟩ := s
  simp only at hf hd hc hdate
  subst hf hd hc hdate
  rfl

/-- Witness for C5 at a concrete post-compute state. -/
theorem c5_witness :
    egAfter.ffmc = some (fun _ => 1) ∧ egAfter.date = none ∧
    FWICalculator.update_daily_parameters egAfter { month := 6 } refInputs =
      ({ egAfter with
          ffmc_prev := some (fun _ => 1)
          dmc_prev := some (fun _ => 2)
          dc_prev := some (fun _ => 3) },
        some (PyError.attributeError AttrName.dateA)) :=
  ⟨rfl, rfl,
    c5_partial_update egAfter { month := 6 } refInputs _ _ _ rfl rfl rfl rfl⟩

/-- exp 5 dominates 65 (used to bound log 65). -/
theorem exp_five_gt : (65.0 : ℝ) < Real.exp 5 := by
  have h1 : (2.7182818283 : ℝ) < Real.exp 1 := Real.exp_one_gt_d9
  have h2 : ((2.7182818283 : ℝ)) ^ (5 : ℕ) < Real.exp 1 ^ (5 : ℕ) :=
    pow_lt_pow_left₀ h1 (by norm_num) (by norm_num)
  have h3 : Real.exp 1 ^ (5 : ℕ) = Real.exp 5 := by
    rw [← Real.exp_nat_mul]
    norm_num
  nlinarith [h2]

/-- exp 3 stays below 65 (used to bound log from below past 65). -/
theorem exp_three_lt : Real.exp 3 < 65.0 := by
  have h1 : Real.exp 1 < 2.7182818286 := Real.exp_one_lt_d9
  have h2 : Real.exp 1 ^ (3 : ℕ) < ((2.7182818286 : ℝ)) ^ (3 : ℕ) :=
    pow_lt_pow_left₀ h1 (Real.exp_pos 1).le (by norm_num)
  have h3 : Real.exp 1 ^ (3 : ℕ) = Real.exp 3 := by
    rw [← Real.exp_nat_mul]
    norm_num
  nlinarith [h2]

/-- With the rain mask on and a nonnegative previous DMC, the blended
piecewise slope of the DMC raining phase is positive. -/
theorem dmc_b_pos {rain dmc_prev : ℝ} (hr : 1.5 < rain) (hd : 0 ≤ dmc_prev) :
    0 < DuffMoistureCode.b rain dmc_prev := by
  have hm : DuffMoistureCode.rain_mask rain = 1 := by
    unfold DuffMoistureCode.rain_mask
    exact eeGt_of_lt hr
  unfold DuffMoistureCode.b DuffMoistureCode.b_1 DuffMoistureCode.b_2
    DuffMoistureCode.b_3 DuffMoistureCode.pw_1 DuffMoistureCode.pw_2
    DuffMoistureCode.pw_3
  rw [hm]
  rcases le_or_lt dmc_prev (33.0 : ℝ) with h1 | h1
  · rw [eeLe_of_le h1, eeGt_of_le h1, eeGt_of_le (le_trans h1 (by norm_num))]
    have hden : (0 : ℝ) < 0.5 + 0.3 * dmc_prev := by nlinarith
    have : (0 : ℝ) < 100.0 / (0.5 + 0.3 * dmc_prev) := by positivity
    nlinarith [this]
  · rcases le_or_lt dmc_prev (65.0 : ℝ) with h2 | h2
    · rw [eeLe_of_gt h1, eeLe_of_le h2, eeGt_of_lt h1, eeGt_of_le h2]
      have hlog : Real.log dmc_prev < 5 := by
        rw [Real.log_lt_iff_lt_exp (by linarith)]
        exact lt_of_le_of_lt h2 exp_five_gt
      nlinarith [hlog]
    · rw [eeLe_of_gt h1, eeLe_of_gt h2, eeGt_of_lt h2]
      have hlog : (3 : ℝ) < Real.log dmc_prev := by
        rw [Real.lt_log_iff_exp_lt (by linarith)]
        exact lt_trans exp_three_lt h2
      nlinarith [hlog]

/-- With the rain mask on and a nonnegative previous DMC, the post-rain
moisture content exceeds 20. -/
theorem dmc_M_r_gt {rain dmc_prev : ℝ} (hr : 1.5 < rain) (hd : 0 ≤ dmc_prev) :
    20 < DuffMoistureCode.M_r rain dmc_prev := by
  have hb := dmc_b_pos hr hd
  have hre : (0 : ℝ) < DuffMoistureCode.r_e rain := by
    unfold DuffMoistureCode.r_e
    nlinarith
  have hden : (0 : ℝ) < 48.77 + DuffMoistureCode.b rain dmc_prev *
      DuffMoistureCode.r_e rain := by positivity
  have hterm : (0 : ℝ) < 1000.0 * DuffMoistureCode.r_e rain /
      (48.77 + DuffMoistureCode.b rain dmc_prev * DuffMoistureCode.r_e rain) := by
    positivity
  have hMo : (20 : ℝ) < DuffMoistureCode.M_o dmc_prev := by
    unfold DuffMoistureCode.M_o
    have : (0 : ℝ) < 280.0 / Real.exp (0.023 * dmc_prev) := by positivity
    linarith
  unfold DuffMoistureCode.M_r
  linarith

/-- C2: in the DMC raining phase, wherever rainfall exceeds 1.5 (and the
carried DMC is nonnegative, as it always is) the blended post-rain value
is max(244.72 - 43.43 ln|M_r - 20|, 0): the logarithm argument M_r - 20 is
provably positive, so the absolute value is exact; wherever rainfall is at
most 1.5 the phase passes dmc_prev through unchanged. -/
theorem c2_dmc_raining_phase (rain dmc_prev : ℝ) :
    (1.5 < rain → 0 ≤ dmc_prev →
      DuffMoistureCode.P_prev rain dmc_prev =
        max (244.72 - 43.43 * Real.log |DuffMoistureCode.M_r rain dmc_prev - 20|)
          0) ∧
    (rain ≤ 1.5 → DuffMoistureCode.P_prev rain dmc_prev = dmc_prev) := by
  constructor
  · intro hr hd
    have hm : DuffMoistureCode.rain_mask rain = 1 := by
      unfold DuffMoistureCode.rain_mask
      exact eeGt_of_lt hr
    have hpos : 0 < DuffMoistureCode.M_r rain dmc_prev - 20 :=
      sub_pos.mpr (dmc_M_r_gt hr hd)
    unfold DuffMoistureCode.P_prev DuffMoistureCode.P_r DuffMoistureCode.P_n
      DuffMoistureCode.negligible
    rw [hm, eeNot_one, abs_of_pos hpos, one_mul, zero_mul, add_zero]
    norm_num
  · intro hr
    have hm : DuffMoistureCode.rain_mask rain = 0 := by
      unfold DuffMoistureCode.rain_mask
      exact eeGt_of_le hr
    unfold DuffMoistureCode.P_prev DuffMoistureCode.P_r DuffMoistureCode.P_n
      DuffMoistureCode.negligible
    rw [hm, eeNot_zero, zero_mul, one_mul]
    norm_num

/-- Witness for C2, exercising both rain branches at concrete inputs. -/
theorem c2_witness :
    ((1.5 : ℝ) < 2 ∧ (0 : ℝ) ≤ 6 ∧
      DuffMoistureCode.P_prev 2 6 =
        max (244.72 - 43.43 * Real.log |DuffMoistureCode.M_r 2 6 - 20|) 0) ∧
    ((1 : ℝ) ≤ 1.5 ∧ DuffMoistureCode.P_prev 1 6 = 6) :=
  ⟨⟨by norm_num, by norm_num,
      (c2_dmc_raining_phase 2 6).1 (by norm_num) (by norm_num)⟩,
    ⟨by norm_num, (c2_dmc_raining_phase 1 6).2 (by norm_num)⟩⟩

/-- The degree-7 Taylor polynomial approximates exp within 1/8000000 on
[-1/2, 1/2]. -/
theorem expTaylor8_err {t : ℝ} (ht : |t| ≤ 2⁻¹) :
    |Real.exp t - expTaylor8 t| ≤ 1 / 8000000 := by
  have h1 : |t| ≤ 1 := le_trans ht (by norm_num)
  have h := Real.exp_bound h1 (show 0 < 8 by norm_num)
  have hs : (∑ i ∈ Finset.range 8, t ^ i / (Nat.factorial i : ℝ)) =
      expTaylor8 t := by
    simp [Finset.sum_range_succ, Nat.factorial, expTaylor8]
  rw [hs] at h
  refine le_trans h ?_
  have h2 : |t| ^ 8 ≤ (2⁻¹ : ℝ) ^ 8 := pow_le_pow_left₀ (abs_nonneg t) ht 8
  have h3 : (0 : ℝ) ≤ |t| ^ 8 := by positivity
  norm_num [Nat.factorial]
  nlinarith [h2, h3]

theorem exp_ub_taylor {t U : ℝ} (ht : |t| ≤ 2⁻¹)
    (h : expTaylor8 t + 1 / 8000000 ≤ U) : Real.exp t ≤ U := by
  have h1 := (abs_sub_le_iff.mp (expTaylor8_err ht)).1
  linarith

theorem exp_lb_taylor {t L : ℝ} (ht : |t| ≤ 2⁻¹)
    (h : L ≤ expTaylor8 t - 1 / 8000000) : L ≤ Real.exp t := by
  have h1 := (abs_sub_le_iff.mp (expTaylor8_err ht)).2
  linarith

theorem exp_double_ub {y U V : ℝ} (h : Real.exp y ≤ U) (hUV : U ^ (2 : ℕ) ≤ V) :
    Real.exp (2 * y) ≤ V := by
  have he : Real.exp (2 * y) = Real.exp y ^ (2 : ℕ) := by
    rw [← Real.exp_nat_mul]
    norm_num
  rw [he]
  exact le_trans (pow_le_pow_left₀ (Real.exp_pos y).le h 2) hUV

theorem exp_double_lb {y L M : ℝ} (hL : 0 ≤ L) (h : L ≤ Real.exp y)
    (hML : M ≤ L ^ (2 : ℕ)) : M ≤ Real.exp (2 * y) := by
  have he : Real.exp (2 * y) = Real.exp y ^ (2 : ℕ) := by
    rw [← Real.exp_nat_mul]
    norm_num
  rw [he]
  exact le_trans hML (pow_le_pow_left₀ hL h 2)

theorem log_lb_of_exp {x a eA : ℝ} (hx : 0 < x) (hA : Real.exp a ≤ eA)
    (h : eA ≤ x) : a ≤ Real.log x :=
  (Real.le_log_iff_exp_le hx).mpr (le_trans hA h)

theorem log_ub_of_exp {x b eB : ℝ} (hx : 0 < x) (hB : eB ≤ Real.exp b)
    (h : x ≤ eB) : Real.log x ≤ b :=
  (Real.log_le_iff_le_exp hx).mpr (le_trans h hB)

theorem rpow_le_of_exp_ub {x y c U : ℝ} (hx : 0 < x) (h : Real.log x * y ≤ c)
    (hU : Real.exp c ≤ U) : x ^ y ≤ U := by
  rw [Real.rpow_def_of_pos hx]
  exact le_trans (Real.exp_le_exp.mpr h) hU

theorem le_rpow_of_exp_lb {x y c L : ℝ} (hx : 0 < x) (h : c ≤ Real.log x * y)
    (hL : L ≤ Real.exp c) : L ≤ x ^ y := by
  rw [Real.rpow_def_of_pos hx]
  exact le_trans hL (Real.exp_le_exp.mpr h)

theorem exA : Real.exp (3.73766 : ℝ) ≤ 41.9996098569 := by
  have h0 : Real.exp (0.4672075 : ℝ) ≤ 1.59553250769 :=
    exp_ub_taylor (by rw [abs_le]; constructor <;> norm_num) (by norm_num [expTaylor8])
  have h1 : Real.exp (0.934415 : ℝ) ≤ 2.5457239831 := by
    have e : (0.934415 : ℝ) = 2 * 0.4672075 := by norm_num
    rw [e]
    exact exp_double_ub h0 (by norm_num)
  have h2 : Real.exp (1.86883 : ℝ) ≤ 6.48071059814 := by
    have e : (1.86883 : ℝ) = 2 * 0.934415 := by norm_num
    rw [e]
    exact exp_double_ub h1 (by norm_num)
  have h3 : Real.exp (3.73766 : ℝ) ≤ 41.9996098569 := by
    have e : (3.73766 : ℝ) = 2 * 1.86883 := by norm_num
    rw [e]
    exact exp_double_ub h2 (by norm_num)
  exact h3

theorem exB : (42.0003972056 : ℝ) ≤ Real.exp (3.73768 : ℝ) := by
  have h0 : (1.59553624651 : ℝ) ≤ Real.exp (0.46721 : ℝ) :=
    exp_lb_taylor (by rw [abs_le]; constructor <;> norm_num) (by norm_num [expTaylor8])
  have h1 : (2.54573591392 : ℝ) ≤ Real.exp (0.93442 : ℝ) := by
    have e : (0.93442 : ℝ) = 2 * 0.46721 := by norm_num
    rw [e]
    exact exp_double_lb (by norm_num) h0 (by norm_num)
  have h2 : (6.48077134342 : ℝ) ≤ Real.exp (1.86884 : ℝ) := by
    have e : (1.86884 : ℝ) = 2 * 0.93442 := by norm_num
    rw [e]
    exact exp_double_lb (by norm_num) h1 (by norm_num)
  have h3 : (42.0003972056 : ℝ) ≤ Real.exp (3.73768 : ℝ) := by
    have e : (3.73768 : ℝ) = 2 * 1.86884 := by norm_num
    rw [e]
    exact exp_double_lb (by norm_num) h2 (by norm_num)
  exact h3

theorem exC : (12.6526970306 : ℝ) ≤ Real.exp (2.53787114 : ℝ) := by
  have h0 : (1.37332361685 : ℝ) ≤ Real.exp (0.3172338925 : ℝ) :=
    exp_lb_taylor (by rw [abs_le]; constructor <;> norm_num) (by norm_num [expTaylor8])
  have h1 : (1.88601775659 : ℝ) ≤ Real.exp (0.634467785 : ℝ) := by
    have e : (0.634467785 : ℝ) = 2 * 0.3172338925 := by norm_num
    rw [e]
    exact exp_double_lb (by norm_num) h0 (by norm_num)
  have h2 : (3.55706297817 : ℝ) ≤ Real.exp (1.26893557 : ℝ) := by
    have e : (1.26893557 : ℝ) = 2 * 0.634467785 := by norm_num
    rw [e]
    exact exp_double_lb (by norm_num) h1 (by norm_num)
  have h3 : (12.6526970306 : ℝ) ≤ Real.exp (2.53787114 : ℝ) := by
    have e : (2.53787114 : ℝ) = 2 * 1.26893557 := by norm_num
    rw [e]
    exact exp_double_lb (by norm_num) h2 (by norm_num)
  exact h3

theorem exD : Real.exp (2.53788472 : ℝ) ≤ 12.6528872834 := by
  have h0 : Real.exp (0.31723559 : ℝ) ≤ 1.37332619808 :=
    exp_ub_taylor (by rw [abs_le]; constructor <;> norm_num) (by norm_num [expTaylor8])
  have h1 : Real.exp (0.63447118 : ℝ) ≤ 1.88602484634 := by
    have e : (0.63447118 : ℝ) = 2 * 0.31723559 := by norm_num
    rw [e]
    exact exp_double_ub h0 (by norm_num)
  have h2 : Real.exp (1.26894236 : ℝ) ≤ 3.55708972102 := by
    have e : (1.26894236 : ℝ) = 2 * 0.63447118 := by norm_num
    rw [e]
    exact exp_double_ub h1 (by norm_num)
  have h3 : Real.exp (2.53788472 : ℝ) ≤ 12.6528872834 := by
    have e : (2.53788472 : ℝ) = 2 * 1.26894236 := by norm_num
    rw [e]
    exact exp_double_ub h2 (by norm_num)
  exact h3

theorem exE : (0.00302754554985 : ℝ) ≤ Real.exp (-5.8 : ℝ) := by
  have h0 : (0.69593418157 : ℝ) ≤ Real.exp (-0.3625 : ℝ) :=
    exp_lb_taylor (by rw [abs_le]; constructor <;> norm_num) (by norm_num [expTaylor8])
  have h1 : (0.484324385077 : ℝ) ≤ Real.exp (-0.725 : ℝ) := by
    have e : (-0.725 : ℝ) = 2 * -0.3625 := by norm_num
    rw [e]
    exact exp_double_lb (by norm_num) h0 (by norm_num)
  have h2 : (0.23457010998 : ℝ) ≤ Real.exp (-1.45 : ℝ) := by
    have e : (-1.45 : ℝ) = 2 * -0.725 := by norm_num
    rw [e]
    exact exp_double_lb (by norm_num) h1 (by norm_num)
  have h3 : (0.055023136496 : ℝ) ≤ Real.exp (-2.9 : ℝ) := by
    have e : (-2.9 : ℝ) = 2 * -1.45 := by norm_num
    rw [e]
    exact exp_double_lb (by norm_num) h2 (by norm_num)
  have h4 : (0.00302754554985 : ℝ) ≤ Real.exp (-5.8 : ℝ) := by
    have e : (-5.8 : ℝ) = 2 * -2.9 := by norm_num
    rw [e]
    exact exp_double_lb (by norm_num) h3 (by norm_num)
  exact h4

theorem exF : Real.exp (-5.8 : ℝ) ≤ 0.00302756295145 := by
  have h0 : Real.exp (-0.3625 : ℝ) ≤ 0.695934431571 :=
    exp_ub_taylor (by rw [abs_le]; constructor <;> norm_num) (by norm_num [expTaylor8])
  have h1 : Real.exp (-0.725 : ℝ) ≤ 0.484324733047 := by
    have e : (-0.725 : ℝ) = 2 * -0.3625 := by norm_num
    rw [e]
    exact exp_double_ub h0 (by norm_num)
  have h2 : Real.exp (-1.45 : ℝ) ≤ 0.234570447042 := by
    have e : (-1.45 : ℝ) = 2 * -0.725 := by norm_num
    rw [e]
    exact exp_double_ub h1 (by norm_num)
  have h3 : Real.exp (-2.9 : ℝ) ≤ 0.0550232946255 := by
    have e : (-2.9 : ℝ) = 2 * -1.45 := by norm_num
    rw [e]
    exact exp_double_ub h2 (by norm_num)
  have h4 : Real.exp (-5.8 : ℝ) ≤ 0.00302756295145 := by
    have e : (-5.8 : ℝ) = 2 * -2.9 := by norm_num
    rw [e]
    exact exp_double_ub h3 (by norm_num)
  exact h4

theorem exG : (0.00798649937802 : ℝ) ≤ Real.exp (-4.83 : ℝ) := by
  have h0 : (0.739430361269 : ℝ) ≤ Real.exp (-0.301875 : ℝ) :=
    exp_lb_taylor (by rw [abs_le]; constructor <;> norm_num) (by norm_num [expTaylor8])
  have h1 : (0.546757259166 : ℝ) ≤ Real.exp (-0.60375 : ℝ) := by
    have e : (-0.60375 : ℝ) = 2 * -0.301875 := by norm_num
    rw [e]
    exact exp_double_lb (by norm_num) h0 (by norm_num)
  have h2 : (0.29894350045 : ℝ) ≤ Real.exp (-1.2075 : ℝ) := by
    have e : (-1.2075 : ℝ) = 2 * -0.60375 := by norm_num
    rw [e]
    exact exp_double_lb (by norm_num) h1 (by norm_num)
  have h3 : (0.0893672164612 : ℝ) ≤ Real.exp (-2.415 : ℝ) := by
    have e : (-2.415 : ℝ) = 2 * -1.2075 := by norm_num
    rw [e]
    exact exp_double_lb (by norm_num) h2 (by norm_num)
  have h4 : (0.00798649937802 : ℝ) ≤ Real.exp (-4.83 : ℝ) := by
    have e : (-4.83 : ℝ) = 2 * -2.415 := by norm_num
    rw [e]
    exact exp_double_lb (by norm_num) h3 (by norm_num)
  exact h4

theorem exH : Real.exp (-4.83 : ℝ) ≤ 0.0079865425821 := by
  have h0 : Real.exp (-0.301875 : ℝ) ≤ 0.73943061127 :=
    exp_ub_taylor (by rw [abs_le]; constructor <;> norm_num) (by norm_num [expTaylor8])
  have h1 : Real.exp (-0.60375 : ℝ) ≤ 0.546757628884 := by
    have e : (-0.60375 : ℝ) = 2 * -0.301875 := by norm_num
    rw [e]
    exact exp_double_ub h0 (by norm_num)
  have h2 : Real.exp (-1.2075 : ℝ) ≤ 0.298943904743 := by
    have e : (-1.2075 : ℝ) = 2 * -0.60375 := by norm_num
    rw [e]
    exact exp_double_ub h1 (by norm_num)
  have h3 : Real.exp (-2.415 : ℝ) ≤ 0.089367458183 := by
    have e : (-2.415 : ℝ) = 2 * -1.2075 := by norm_num
    rw [e]
    exact exp_double_ub h2 (by norm_num)
  have h4 : Real.exp (-4.83 : ℝ) ≤ 0.0079865425821 := by
    have e : (-4.83 : ℝ) = 2 * -2.415 := by norm_num
    rw [e]
    exact exp_double_ub h3 (by norm_num)
  exact h4

theorem exI : Real.exp (2.81447304 : ℝ) ≤ 16.6843926301 := by
  have h0 : Real.exp (0.35180913 : ℝ) ≤ 1.42163726889 :=
    exp_ub_taylor (by rw [abs_le]; constructor <;> norm_num) (by norm_num [expTaylor8])
  have h1 : Real.exp (0.70361826 : ℝ) ≤ 2.0210525243 := by
    have e : (0.70361826 : ℝ) = 2 * 0.35180913 := by norm_num
    rw [e]
    exact exp_double_ub h0 (by norm_num)
  have h2 : Real.exp (1.40723652 : ℝ) ≤ 4.08465330598 := by
    have e : (1.40723652 : ℝ) = 2 * 0.70361826 := by norm_num
    rw [e]
    exact exp_double_ub h1 (by norm_num)
  have h3 : Real.exp (2.81447304 : ℝ) ≤ 16.6843926301 := by
    have e : (2.81447304 : ℝ) = 2 * 1.40723652 := by norm_num
    rw [e]
    exact exp_double_ub h2 (by norm_num)
  exact h3

theorem exJ : Real.exp (-0.867502 : ℝ) ≤ 0.419999522039 := by
  have h0 : Real.exp (-0.433751 : ℝ) ≤ 0.648073701085 :=
    exp_ub_taylor (by rw [abs_le]; constructor <;> norm_num) (by norm_num [expTaylor8])
  have h1 : Real.exp (-0.867502 : ℝ) ≤ 0.419999522039 := by
    have e : (-0.867502 : ℝ) = 2 * -0.433751 := by norm_num
    rw [e]
    exact exp_double_ub h0 (by norm_num)
  exact h1

theorem exK : (0.420000038 : ℝ) ≤ Real.exp (-0.8675 : ℝ) := by
  have h0 : (0.648074099159 : ℝ) ≤ Real.exp (-0.43375 : ℝ) :=
    exp_lb_taylor (by rw [abs_le]; constructor <;> norm_num) (by norm_num [expTaylor8])
  have h1 : (0.420000038 : ℝ) ≤ Real.exp (-0.8675 : ℝ) := by
    have e : (-0.8675 : ℝ) = 2 * -0.43375 := by norm_num
    rw [e]
    exact exp_double_lb (by norm_num) h0 (by norm_num)
  exact h1

theorem exL : (0.228834974641 : ℝ) ≤ Real.exp (-1.4747534 : ℝ) := by
  have h0 : (0.691640793627 : ℝ) ≤ Real.exp (-0.36868835 : ℝ) :=
    exp_lb_taylor (by rw [abs_le]; constructor <;> norm_num) (by norm_num [expTaylor8])
  have h1 : (0.478366987408 : ℝ) ≤ Real.exp (-0.7373767 : ℝ) := by
    have e : (-0.7373767 : ℝ) = 2 * -0.36868835 := by norm_num
    rw [e]
    exact exp_double_lb (by norm_num) h0 (by norm_num)
  have h2 : (0.228834974641 : ℝ) ≤ Real.exp (-1.4747534 : ℝ) := by
    have e : (-1.4747534 : ℝ) = 2 * -0.7373767 := by norm_num
    rw [e]
    exact exp_double_lb (by norm_num) h1 (by norm_num)
  exact h2

theorem exM : Real.exp (-1.47475 : ℝ) ≤ 0.228836083544 := by
  have h0 : Real.exp (-0.3686875 : ℝ) ≤ 0.691641631523 :=
    exp_ub_taylor (by rw [abs_le]; constructor <;> norm_num) (by norm_num [expTaylor8])
  have h1 : Real.exp (-0.737375 : ℝ) ≤ 0.478368146456 := by
    have e : (-0.737375 : ℝ) = 2 * -0.3686875 := by norm_num
    rw [e]
    exact exp_double_ub h0 (by norm_num)
  have h2 : Real.exp (-1.47475 : ℝ) ≤ 0.228836083544 := by
    have e : (-1.47475 : ℝ) = 2 * -0.737375 := by norm_num
    rw [e]
    exact exp_double_ub h1 (by norm_num)
  exact h2

theorem exN : (1.85985739129 : ℝ) ≤ Real.exp (0.6205 : ℝ) := by
  have h0 : (1.36376588581 : ℝ) ≤ Real.exp (0.31025 : ℝ) :=
    exp_lb_taylor (by rw [abs_le]; constructor <;> norm_num) (by norm_num [expTaylor8])
  have h1 : (1.85985739129 : ℝ) ≤ Real.exp (0.6205 : ℝ) := by
    have e : (0.6205 : ℝ) = 2 * 0.31025 := by norm_num
    rw [e]
    exact exp_double_lb (by norm_num) h0 (by norm_num)
  exact h1

theorem exO : Real.exp (0.6205 : ℝ) ≤ 1.85985807321 := by
  have h0 : Real.exp (0.31025 : ℝ) ≤ 1.36376613582 :=
    exp_ub_taylor (by rw [abs_le]; constructor <;> norm_num) (by norm_num [expTaylor8])
  have h1 : Real.exp (0.6205 : ℝ) ≤ 1.85985807321 := by
    have e : (0.6205 : ℝ) = 2 * 0.31025 := by norm_num
    rw [e]
    exact exp_double_ub h0 (by norm_num)
  exact h1

theorem exP : Real.exp (2.302584 : ℝ) ≤ 9.9999964971 := by
  have h0 : Real.exp (0.287823 : ℝ) ≤ 1.33352137377 :=
    exp_ub_taylor (by rw [abs_le]; constructor <;> norm_num) (by norm_num [expTaylor8])
  have h1 : Real.exp (0.575646 : ℝ) ≤ 1.77827925431 := by
    have e : (0.575646 : ℝ) = 2 * 0.287823 := by norm_num
    rw [e]
    exact exp_double_ub h0 (by norm_num)
  have h2 : Real.exp (1.151292 : ℝ) ≤ 3.16227710631 := by
    have e : (1.151292 : ℝ) = 2 * 0.575646 := by norm_num
    rw [e]
    exact exp_double_ub h1 (by norm_num)
  have h3 : Real.exp (2.302584 : ℝ) ≤ 9.9999964971 := by
    have e : (2.302584 : ℝ) = 2 * 1.151292 := by norm_num
    rw [e]
    exact exp_double_ub h2 (by norm_num)
  exact h3

theorem exQ : (10.0000114983 : ℝ) ≤ Real.exp (2.302587 : ℝ) := by
  have h0 : (1.33352162383 : ℝ) ≤ Real.exp (0.287823375 : ℝ) :=
    exp_lb_taylor (by rw [abs_le]; constructor <;> norm_num) (by norm_num [expTaylor8])
  have h1 : (1.77827992122 : ℝ) ≤ Real.exp (0.57564675 : ℝ) := by
    have e : (0.57564675 : ℝ) = 2 * 0.287823375 := by norm_num
    rw [e]
    exact exp_double_lb (by norm_num) h0 (by norm_num)
  have h2 : (3.16227947821 : ℝ) ≤ Real.exp (1.1512935 : ℝ) := by
    have e : (1.1512935 : ℝ) = 2 * 0.57564675 := by norm_num
    rw [e]
    exact exp_double_lb (by norm_num) h1 (by norm_num)
  have h3 : (10.0000114983 : ℝ) ≤ Real.exp (2.302587 : ℝ) := by
    have e : (2.302587 : ℝ) = 2 * 1.1512935 := by norm_num
    rw [e]
    exact exp_double_lb (by norm_num) h2 (by norm_num)
  exact h3

theorem exR : (5.3446193835 : ℝ) ≤ Real.exp (1.676090726000616 : ℝ) := by
  have h0 : (1.52047469133 : ℝ) ≤ Real.exp (0.419022681500154 : ℝ) :=
    exp_lb_taylor (by rw [abs_le]; constructor <;> norm_num) (by norm_num [expTaylor8])
  have h1 : (2.31184328697 : ℝ) ≤ Real.exp (0.838045363000308 : ℝ) := by
    have e : (0.838045363000308 : ℝ) = 2 * 0.419022681500154 := by norm_num
    rw [e]
    exact exp_double_lb (by norm_num) h0 (by norm_num)
  have h2 : (5.3446193835 : ℝ) ≤ Real.exp (1.676090726000616 : ℝ) := by
    have e : (1.676090726000616 : ℝ) = 2 * 0.838045363000308 := by norm_num
    rw [e]
    exact exp_double_lb (by norm_num) h1 (by norm_num)
  exact h2

theorem exS : Real.exp (1.676094696560025 : ℝ) ≤ 5.3446441199 := by
  have h0 : Real.exp (0.41902367414000625 : ℝ) ≤ 1.52047645062 :=
    exp_ub_taylor (by rw [abs_le]; constructor <;> norm_num) (by norm_num [expTaylor8])
  have h1 : Real.exp (0.8380473482800125 : ℝ) ≤ 2.31184863689 := by
    have e : (0.8380473482800125 : ℝ) = 2 * 0.41902367414000625 := by norm_num
    rw [e]
    exact exp_double_ub h0 (by norm_num)
  have h2 : Real.exp (1.676094696560025 : ℝ) ≤ 5.3446441199 := by
    have e : (1.676094696560025 : ℝ) = 2 * 0.8380473482800125 := by norm_num
    rw [e]
    exact exp_double_ub h1 (by norm_num)
  exact h2

theorem exT : (3.52453893028 : ℝ) ≤ Real.exp (1.25975 : ℝ) := by
  have h0 : (1.37017354493 : ℝ) ≤ Real.exp (0.3149375 : ℝ) :=
    exp_lb_taylor (by rw [abs_le]; constructor <;> norm_num) (by norm_num [expTaylor8])
  have h1 : (1.87737554322 : ℝ) ≤ Real.exp (0.629875 : ℝ) := by
    have e : (0.629875 : ℝ) = 2 * 0.3149375 := by norm_num
    rw [e]
    exact exp_double_lb (by norm_num) h0 (by norm_num)
  have h2 : (3.52453893028 : ℝ) ≤ Real.exp (1.25975 : ℝ) := by
    have e : (1.25975 : ℝ) = 2 * 0.629875 := by norm_num
    rw [e]
    exact exp_double_lb (by norm_num) h1 (by norm_num)
  exact h2

theorem exU : Real.exp (1.25975 : ℝ) ≤ 3.52454150278 := by
  have h0 : Real.exp (0.3149375 : ℝ) ≤ 1.37017379494 :=
    exp_ub_taylor (by rw [abs_le]; constructor <;> norm_num) (by norm_num [expTaylor8])
  have h1 : Real.exp (0.629875 : ℝ) ≤ 1.87737622835 := by
    have e : (0.629875 : ℝ) = 2 * 0.3149375 := by norm_num
    rw [e]
    exact exp_double_ub h0 (by norm_num)
  have h2 : Real.exp (1.25975 : ℝ) ≤ 3.52454150278 := by
    have e : (1.25975 : ℝ) = 2 * 0.629875 := by norm_num
    rw [e]
    exact exp_double_ub h1 (by norm_num)
  exact h2

theorem exV : Real.exp (2.5883294 : ℝ) ≤ 13.3075308692 := by
  have h0 : Real.exp (0.323541175 : ℝ) ≤ 1.3820131814 :=
    exp_ub_taylor (by rw [abs_le]; constructor <;> norm_num) (by norm_num [expTaylor8])
  have h1 : Real.exp (0.64708235 : ℝ) ≤ 1.90996043357 := by
    have e : (0.64708235 : ℝ) = 2 * 0.323541175 := by norm_num
    rw [e]
    exact exp_double_ub h0 (by norm_num)
  have h2 : Real.exp (1.2941647 : ℝ) ≤ 3.64794885781 := by
    have e : (1.2941647 : ℝ) = 2 * 0.64708235 := by norm_num
    rw [e]
    exact exp_double_ub h1 (by norm_num)
  have h3 : Real.exp (2.5883294 : ℝ) ≤ 13.3075308692 := by
    have e : (2.5883294 : ℝ) = 2 * 1.2941647 := by norm_num
    rw [e]
    exact exp_double_ub h2 (by norm_num)
  exact h3

theorem exW : (13.3077817549 : ℝ) ≤ Real.exp (2.5883497 : ℝ) := by
  have h0 : (1.38201643825 : ℝ) ≤ Real.exp (0.3235437125 : ℝ) :=
    exp_lb_taylor (by rw [abs_le]; constructor <;> norm_num) (by norm_num [expTaylor8])
  have h1 : (1.90996943559 : ℝ) ≤ Real.exp (0.647087425 : ℝ) := by
    have e : (0.647087425 : ℝ) = 2 * 0.3235437125 := by norm_num
    rw [e]
    exact exp_double_lb (by norm_num) h0 (by norm_num)
  have h2 : (3.64798324488 : ℝ) ≤ Real.exp (1.29417485 : ℝ) := by
    have e : (1.29417485 : ℝ) = 2 * 0.647087425 := by norm_num
    rw [e]
    exact exp_double_lb (by norm_num) h1 (by norm_num)
  have h3 : (13.3077817549 : ℝ) ≤ Real.exp (2.5883497 : ℝ) := by
    have e : (2.5883497 : ℝ) = 2 * 1.29417485 := by norm_num
    rw [e]
    exact exp_double_lb (by norm_num) h2 (by norm_num)
  exact h3

theorem exX : (931010.544759 : ℝ) ≤ Real.exp (13.744029114 : ℝ) := by
  have h0 : (1.53649032967 : ℝ) ≤ Real.exp (0.4295009098125 : ℝ) :=
    exp_lb_taylor (by rw [abs_le]; constructor <;> norm_num) (by norm_num [expTaylor8])
  have h1 : (2.36080253316 : ℝ) ≤ Real.exp (0.859001819625 : ℝ) := by
    have e : (0.859001819625 : ℝ) = 2 * 0.4295009098125 := by norm_num
    rw [e]
    exact exp_double_lb (by norm_num) h0 (by norm_num)
  have h2 : (5.57338860057 : ℝ) ≤ Real.exp (1.71800363925 : ℝ) := by
    have e : (1.71800363925 : ℝ) = 2 * 0.859001819625 := by norm_num
    rw [e]
    exact exp_double_lb (by norm_num) h1 (by norm_num)
  have h3 : (31.0626604929 : ℝ) ≤ Real.exp (3.4360072785 : ℝ) := by
    have e : (3.4360072785 : ℝ) = 2 * 1.71800363925 := by norm_num
    rw [e]
    exact exp_double_lb (by norm_num) h2 (by norm_num)
  have h4 : (964.888876897 : ℝ) ≤ Real.exp (6.872014557 : ℝ) := by
    have e : (6.872014557 : ℝ) = 2 * 3.4360072785 := by norm_num
    rw [e]
    exact exp_double_lb (by norm_num) h3 (by norm_num)
  have h5 : (931010.544759 : ℝ) ≤ Real.exp (13.744029114 : ℝ) := by
    have e : (13.744029114 : ℝ) = 2 * 6.872014557 := by norm_num
    rw [e]
    exact exp_double_lb (by norm_num) h4 (by norm_num)
  exact h5

theorem exY : Real.exp (13.744136907 : ℝ) ≤ 931115.754819 := by
  have h0 : Real.exp (0.42950427834375 : ℝ) ≤ 1.5364957554 :=
    exp_ub_taylor (by rw [abs_le]; constructor <;> norm_num) (by norm_num [expTaylor8])
  have h1 : Real.exp (0.8590085566875 : ℝ) ≤ 2.36081920637 := by
    have e : (0.8590085566875 : ℝ) = 2 * 0.42950427834375 := by norm_num
    rw [e]
    exact exp_double_ub h0 (by norm_num)
  have h2 : Real.exp (1.718017113375 : ℝ) ≤ 5.57346732517 := by
    have e : (1.718017113375 : ℝ) = 2 * 0.8590085566875 := by norm_num
    rw [e]
    exact exp_double_ub h1 (by norm_num)
  have h3 : Real.exp (3.43603422675 : ℝ) ≤ 31.0635380248 := by
    have e : (3.43603422675 : ℝ) = 2 * 1.718017113375 := by norm_num
    rw [e]
    exact exp_double_ub h2 (by norm_num)
  have h4 : Real.exp (6.8720684535 : ℝ) ≤ 964.943394619 := by
    have e : (6.8720684535 : ℝ) = 2 * 3.43603422675 := by norm_num
    rw [e]
    exact exp_double_ub h3 (by norm_num)
  have h5 : Real.exp (13.744136907 : ℝ) ≤ 931115.754819 := by
    have e : (13.744136907 : ℝ) = 2 * 6.8720684535 := by norm_num
    rw [e]
    exact exp_double_ub h4 (by norm_num)
  exact h5

theorem exZ : (0.158111107133 : ℝ) ≤ Real.exp (-1.844456184648 : ℝ) := by
  have h0 : (0.630580584771 : ℝ) ≤ Real.exp (-0.461114046162 : ℝ) :=
    exp_lb_taylor (by rw [abs_le]; constructor <;> norm_num) (by norm_num [expTaylor8])
  have h1 : (0.39763187389 : ℝ) ≤ Real.exp (-0.922228092324 : ℝ) := by
    have e : (-0.922228092324 : ℝ) = 2 * -0.461114046162 := by norm_num
    rw [e]
    exact exp_double_lb (by norm_num) h0 (by norm_num)
  have h2 : (0.158111107133 : ℝ) ≤ Real.exp (-1.844456184648 : ℝ) := by
    have e : (-1.844456184648 : ℝ) = 2 * -0.922228092324 := by norm_num
    rw [e]
    exact exp_double_lb (by norm_num) h1 (by norm_num)
  exact h2

theorem exAA : Real.exp (-1.844426231802 : ℝ) ≤ 0.158116093836 := by
  have h0 : Real.exp (-0.4611065579505 : ℝ) ≤ 0.630585556718 :=
    exp_ub_taylor (by rw [abs_le]; constructor <;> norm_num) (by norm_num [expTaylor8])
  have h1 : Real.exp (-0.922213115901 : ℝ) ≤ 0.397638144342 := by
    have e : (-0.922213115901 : ℝ) = 2 * -0.4611065579505 := by norm_num
    rw [e]
    exact exp_double_ub h0 (by norm_num)
  have h2 : Real.exp (-1.844426231802 : ℝ) ≤ 0.158116093836 := by
    have e : (-1.844426231802 : ℝ) = 2 * -0.922213115901 := by norm_num
    rw [e]
    exact exp_double_ub h1 (by norm_num)
  exact h2

theorem exAB : Real.exp (-2.4213687 : ℝ) ≤ 0.0888001122583 := by
  have h0 : Real.exp (-0.3026710875 : ℝ) ≤ 0.738842194113 :=
    exp_ub_taylor (by rw [abs_le]; constructor <;> norm_num) (by norm_num [expTaylor8])
  have h1 : Real.exp (-0.605342175 : ℝ) ≤ 0.545887787802 := by
    have e : (-0.605342175 : ℝ) = 2 * -0.3026710875 := by norm_num
    rw [e]
    exact exp_double_ub h0 (by norm_num)
  have h2 : Real.exp (-1.21068435 : ℝ) ≤ 0.297993476872 := by
    have e : (-1.21068435 : ℝ) = 2 * -0.605342175 := by norm_num
    rw [e]
    exact exp_double_ub h1 (by norm_num)
  have h3 : Real.exp (-2.4213687 : ℝ) ≤ 0.0888001122583 := by
    have e : (-2.4213687 : ℝ) = 2 * -1.21068435 := by norm_num
    rw [e]
    exact exp_double_ub h2 (by norm_num)
  exact h3

theorem exAC : (0.0888002359607 : ℝ) ≤ Real.exp (-2.4213646 : ℝ) := by
  have h0 : (0.738842322769 : ℝ) ≤ Real.exp (-0.302670575 : ℝ) :=
    exp_lb_taylor (by rw [abs_le]; constructor <;> norm_num) (by norm_num [expTaylor8])
  have h1 : (0.545887977914 : ℝ) ≤ Real.exp (-0.60534115 : ℝ) := by
    have e : (-0.60534115 : ℝ) = 2 * -0.302670575 := by norm_num
    rw [e]
    exact exp_double_lb (by norm_num) h0 (by norm_num)
  have h2 : (0.297993684431 : ℝ) ≤ Real.exp (-1.2106823 : ℝ) := by
    have e : (-1.2106823 : ℝ) = 2 * -0.60534115 := by norm_num
    rw [e]
    exact exp_double_lb (by norm_num) h1 (by norm_num)
  have h3 : (0.0888002359607 : ℝ) ≤ Real.exp (-2.4213646 : ℝ) := by
    have e : (-2.4213646 : ℝ) = 2 * -1.2106823 := by norm_num
    rw [e]
    exact exp_double_lb (by norm_num) h2 (by norm_num)
  exact h3

theorem exAD : (0.0163042513461 : ℝ) ≤ Real.exp (-4.11632679 : ℝ) := by
  have h0 : (0.773158978962 : ℝ) ≤ Real.exp (-0.257270424375 : ℝ) :=
    exp_lb_taylor (by rw [abs_le]; constructor <;> norm_num) (by norm_num [expTaylor8])
  have h1 : (0.597774806749 : ℝ) ≤ Real.exp (-0.51454084875 : ℝ) := by
    have e : (-0.51454084875 : ℝ) = 2 * -0.257270424375 := by norm_num
    rw [e]
    exact exp_double_lb (by norm_num) h0 (by norm_num)
  have h2 : (0.357334719583 : ℝ) ≤ Real.exp (-1.0290816975 : ℝ) := by
    have e : (-1.0290816975 : ℝ) = 2 * -0.51454084875 := by norm_num
    rw [e]
    exact exp_double_lb (by norm_num) h1 (by norm_num)
  have h3 : (0.127688101819 : ℝ) ≤ Real.exp (-2.058163395 : ℝ) := by
    have e : (-2.058163395 : ℝ) = 2 * -1.0290816975 := by norm_num
    rw [e]
    exact exp_double_lb (by norm_num) h2 (by norm_num)
  have h4 : (0.0163042513461 : ℝ) ≤ Real.exp (-4.11632679 : ℝ) := by
    have e : (-4.11632679 : ℝ) = 2 * -2.058163395 := by norm_num
    rw [e]
    exact exp_double_lb (by norm_num) h3 (by norm_num)
  exact h4

theorem exAE : Real.exp (-4.11631982 : ℝ) ≤ 0.0163044493402 := by
  have h0 : Real.exp (-0.25726998875 : ℝ) ≤ 0.77315956577 :=
    exp_ub_taylor (by rw [abs_le]; constructor <;> norm_num) (by norm_num [expTaylor8])
  have h1 : Real.exp (-0.5145399775 : ℝ) ≤ 0.597775714142 := by
    have e : (-0.5145399775 : ℝ) = 2 * -0.25726998875 := by norm_num
    rw [e]
    exact exp_double_ub h0 (by norm_num)
  have h2 : Real.exp (-1.029079955 : ℝ) ≤ 0.357335804418 := by
    have e : (-1.029079955 : ℝ) = 2 * -0.5145399775 := by norm_num
    rw [e]
    exact exp_double_ub h1 (by norm_num)
  have h3 : Real.exp (-2.05815991 : ℝ) ≤ 0.12768887712 := by
    have e : (-2.05815991 : ℝ) = 2 * -1.029079955 := by norm_num
    rw [e]
    exact exp_double_ub h2 (by norm_num)
  have h4 : Real.exp (-4.11631982 : ℝ) ≤ 0.0163044493402 := by
    have e : (-4.11631982 : ℝ) = 2 * -2.05815991 := by norm_num
    rw [e]
    exact exp_double_ub h3 (by norm_num)
  exact h4

theorem exAF : Real.exp (2.0521066 : ℝ) ≤ 7.78428821516 := by
  have h0 : Real.exp (0.256513325 : ℝ) ≤ 1.29241611165 :=
    exp_ub_taylor (by rw [abs_le]; constructor <;> norm_num) (by norm_num [expTaylor8])
  have h1 : Real.exp (0.51302665 : ℝ) ≤ 1.67033940566 := by
    have e : (0.51302665 : ℝ) = 2 * 0.256513325 := by norm_num
    rw [e]
    exact exp_double_ub h0 (by norm_num)
  have h2 : Real.exp (1.0260533 : ℝ) ≤ 2.79003373011 := by
    have e : (1.0260533 : ℝ) = 2 * 0.51302665 := by norm_num
    rw [e]
    exact exp_double_ub h1 (by norm_num)
  have h3 : Real.exp (2.0521066 : ℝ) ≤ 7.78428821516 := by
    have e : (2.0521066 : ℝ) = 2 * 1.0260533 := by norm_num
    rw [e]
    exact exp_double_ub h2 (by norm_num)
  exact h3

theorem exAG : (7.78430808422 : ℝ) ≤ Real.exp (2.0521107 : ℝ) := by
  have h0 : (1.29241652401 : ℝ) ≤ Real.exp (0.2565138375 : ℝ) :=
    exp_lb_taylor (by rw [abs_le]; constructor <;> norm_num) (by norm_num [expTaylor8])
  have h1 : (1.67034047153 : ℝ) ≤ Real.exp (0.513027675 : ℝ) := by
    have e : (0.513027675 : ℝ) = 2 * 0.2565138375 := by norm_num
    rw [e]
    exact exp_double_lb (by norm_num) h0 (by norm_num)
  have h2 : (2.79003729083 : ℝ) ≤ Real.exp (1.02605535 : ℝ) := by
    have e : (1.02605535 : ℝ) = 2 * 0.513027675 := by norm_num
    rw [e]
    exact exp_double_lb (by norm_num) h1 (by norm_num)
  have h3 : (7.78430808422 : ℝ) ≤ Real.exp (2.0521107 : ℝ) := by
    have e : (2.0521107 : ℝ) = 2 * 1.02605535 := by norm_num
    rw [e]
    exact exp_double_lb (by norm_num) h2 (by norm_num)
  exact h3

theorem exAH : (5.26012004513 : ℝ) ≤ Real.exp (1.6601542394 : ℝ) := by
  have h0 : (1.51442898783 : ℝ) ≤ Real.exp (0.41503855985 : ℝ) :=
    exp_lb_taylor (by rw [abs_le]; constructor <;> norm_num) (by norm_num [expTaylor8])
  have h1 : (2.29349515917 : ℝ) ≤ Real.exp (0.8300771197 : ℝ) := by
    have e : (0.8300771197 : ℝ) = 2 * 0.41503855985 := by norm_num
    rw [e]
    exact exp_double_lb (by norm_num) h0 (by norm_num)
  have h2 : (5.26012004513 : ℝ) ≤ Real.exp (1.6601542394 : ℝ) := by
    have e : (1.6601542394 : ℝ) = 2 * 0.8300771197 := by norm_num
    rw [e]
    exact exp_double_lb (by norm_num) h1 (by norm_num)
  exact h2

theorem exAI : Real.exp (1.6601575563 : ℝ) ≤ 5.2601409661 := by
  have h0 : Real.exp (0.415039389075 : ℝ) ≤ 1.51443049365 :=
    exp_ub_taylor (by rw [abs_le]; constructor <;> norm_num) (by norm_num [expTaylor8])
  have h1 : Real.exp (0.83007877815 : ℝ) ≤ 2.2934997201 := by
    have e : (0.83007877815 : ℝ) = 2 * 0.415039389075 := by norm_num
    rw [e]
    exact exp_double_ub h0 (by norm_num)
  have h2 : Real.exp (1.6601575563 : ℝ) ≤ 5.2601409661 := by
    have e : (1.6601575563 : ℝ) = 2 * 0.83007877815 := by norm_num
    rw [e]
    exact exp_double_ub h1 (by norm_num)
  exact h2

theorem exAJ : Real.exp (1.7482516 : ℝ) ≤ 5.74455145953 := by
  have h0 : Real.exp (0.4370629 : ℝ) ≤ 1.54815354315 :=
    exp_ub_taylor (by rw [abs_le]; constructor <;> norm_num) (by norm_num [expTaylor8])
  have h1 : Real.exp (0.8741258 : ℝ) ≤ 2.39677939317 := by
    have e : (0.8741258 : ℝ) = 2 * 0.4370629 := by norm_num
    rw [e]
    exact exp_double_ub h0 (by norm_num)
  have h2 : Real.exp (1.7482516 : ℝ) ≤ 5.74455145953 := by
    have e : (1.7482516 : ℝ) = 2 * 0.8741258 := by norm_num
    rw [e]
    exact exp_double_ub h1 (by norm_num)
  exact h2

theorem exAK : (5.74478270542 : ℝ) ≤ Real.exp (1.7482925 : ℝ) := by
  have h0 : (1.54816912308 : ℝ) ≤ Real.exp (0.437073125 : ℝ) :=
    exp_lb_taylor (by rw [abs_le]; constructor <;> norm_num) (by norm_num [expTaylor8])
  have h1 : (2.39682763365 : ℝ) ≤ Real.exp (0.87414625 : ℝ) := by
    have e : (0.87414625 : ℝ) = 2 * 0.437073125 := by norm_num
    rw [e]
    exact exp_double_lb (by norm_num) h0 (by norm_num)
  have h2 : (5.74478270542 : ℝ) ≤ Real.exp (1.7482925 : ℝ) := by
    have e : (1.7482925 : ℝ) = 2 * 0.87414625 := by norm_num
    rw [e]
    exact exp_double_lb (by norm_num) h1 (by norm_num)
  exact h2

theorem exAL : Real.exp (-0.2760966 : ℝ) ≤ 0.758739757161 := by
  have h0 : Real.exp (-0.2760966 : ℝ) ≤ 0.758739757161 :=
    exp_ub_taylor (by rw [abs_le]; constructor <;> norm_num) (by norm_num [expTaylor8])
  exact h0

theorem exAM : (0.758760372787 : ℝ) ≤ Real.exp (-0.2760691 : ℝ) := by
  have h0 : (0.758760372787 : ℝ) ≤ Real.exp (-0.2760691 : ℝ) :=
    exp_lb_taylor (by rw [abs_le]; constructor <;> norm_num) (by norm_num [expTaylor8])
  exact h0

theorem exAN : (0.836411426765 : ℝ) ≤ Real.exp (-0.1786345002 : ℝ) := by
  have h0 : (0.836411426765 : ℝ) ≤ Real.exp (-0.1786345002 : ℝ) :=
    exp_lb_taylor (by rw [abs_le]; constructor <;> norm_num) (by norm_num [expTaylor8])
  exact h0

theorem exAO : Real.exp (-0.1786167077 : ℝ) ≤ 0.836426558751 := by
  have h0 : Real.exp (-0.1786167077 : ℝ) ≤ 0.836426558751 :=
    exp_ub_taylor (by rw [abs_le]; constructor <;> norm_num) (by norm_num [expTaylor8])
  exact h0

theorem exAP : (9.72829180188 : ℝ) ≤ Real.exp (2.27503908 : ℝ) := by
  have h0 : (1.32893755226 : ℝ) ≤ Real.exp (0.284379885 : ℝ) :=
    exp_lb_taylor (by rw [abs_le]; constructor <;> norm_num) (by norm_num [expTaylor8])
  have h1 : (1.7660750178 : ℝ) ≤ Real.exp (0.56875977 : ℝ) := by
    have e : (0.56875977 : ℝ) = 2 * 0.284379885 := by norm_num
    rw [e]
    exact exp_double_lb (by norm_num) h0 (by norm_num)
  have h2 : (3.11902096849 : ℝ) ≤ Real.exp (1.13751954 : ℝ) := by
    have e : (1.13751954 : ℝ) = 2 * 0.56875977 := by norm_num
    rw [e]
    exact exp_double_lb (by norm_num) h1 (by norm_num)
  have h3 : (9.72829180188 : ℝ) ≤ Real.exp (2.27503908 : ℝ) := by
    have e : (2.27503908 : ℝ) = 2 * 1.13751954 := by norm_num
    rw [e]
    exact exp_double_lb (by norm_num) h2 (by norm_num)
  exact h3

theorem exAQ : Real.exp (2.27508024 : ℝ) ≤ 9.72870686928 := by
  have h0 : Real.exp (0.28438503 : ℝ) ≤ 1.32894463968 :=
    exp_ub_taylor (by rw [abs_le]; constructor <;> norm_num) (by norm_num [expTaylor8])
  have h1 : Real.exp (0.56877006 : ℝ) ≤ 1.76609385534 := by
    have e : (0.56877006 : ℝ) = 2 * 0.28438503 := by norm_num
    rw [e]
    exact exp_double_ub h0 (by norm_num)
  have h2 : Real.exp (1.13754012 : ℝ) ≤ 3.11908750587 := by
    have e : (1.13754012 : ℝ) = 2 * 0.56877006 := by norm_num
    rw [e]
    exact exp_double_ub h1 (by norm_num)
  have h3 : Real.exp (2.27508024 : ℝ) ≤ 9.72870686928 := by
    have e : (2.27508024 : ℝ) = 2 * 1.13754012 := by norm_num
    rw [e]
    exact exp_double_ub h2 (by norm_num)
  exact h3

/-- log 42 lower bound. -/
theorem log42_lb : (3.73766 : ℝ) ≤ Real.log 42 :=
  log_lb_of_exp (by norm_num) exA (by norm_num)

/-- log 42 upper bound. -/
theorem log42_ub : Real.log 42 ≤ 3.73768 :=
  log_ub_of_exp (by norm_num) exB (by norm_num)

theorem a1_lb : (12.6526970306 : ℝ) ≤ (42 : ℝ) ^ (0.679 : ℝ) :=
  le_rpow_of_exp_lb (by norm_num) (by nlinarith [log42_lb]) exC

theorem a1_ub : (42 : ℝ) ^ (0.679 : ℝ) ≤ 12.6528872834 :=
  rpow_le_of_exp_ub (by norm_num) (by nlinarith [log42_ub]) exD

theorem a2_ub : (42 : ℝ) ^ (0.753 : ℝ) ≤ 16.6843926301 :=
  rpow_le_of_exp_ub (by norm_num) (by nlinarith [log42_ub]) exI

/-- Bounds on the FFMC drying equilibrium at the reference weather. -/
theorem Ed_bounds : (12.68424953 : ℝ) ≤ FineFuelMoistureCode.E_d 17 42 ∧
    FineFuelMoistureCode.E_d 17 42 ≤ 12.68442898 := by
  unfold FineFuelMoistureCode.E_d
  rw [show ((42 : ℝ) - 100) / 10 = (-5.8 : ℝ) by norm_num,
    show (-0.115 * (42 : ℝ)) = (-4.83 : ℝ) by norm_num]
  constructor
  · nlinarith [a1_lb, exE, exH]
  · nlinarith [a1_ub, exF, exG]

/-- Upper bound on the FFMC wetting equilibrium at the reference weather. -/
theorem Ew_ub : FineFuelMoistureCode.E_w 17 42 ≤ 11.07333624 := by
  unfold FineFuelMoistureCode.E_w
  rw [show ((42 : ℝ) - 100) / 10 = (-5.8 : ℝ) by norm_num,
    show (-0.115 * (42 : ℝ)) = (-4.83 : ℝ) by norm_num]
  nlinarith [a2_ub, exF, exG]

/-- With no rain the reference post-rain moisture equals m_o. -/
theorem mo_ref : FineFuelMoistureCode.mo 0 85 = 23552 / 1445 := by
  unfold FineFuelMoistureCode.mo
  rw [ffmc_delta_m_no_rain (by norm_num) 85, add_zero]
  have hmo : FineFuelMoistureCode.m_o 85 = 23552 / 1445 := by
    unfold FineFuelMoistureCode.m_o
    norm_num
  rw [hmo]
  exact min_eq_left (by norm_num)

theorem drying_ref : FineFuelMoistureCode.drying 17 42 0 85 = 1 := by
  unfold FineFuelMoistureCode.drying
  rw [mo_ref]
  exact eeGt_of_lt (lt_of_le_of_lt Ed_bounds.2 (by norm_num))

theorem wetting_ref : FineFuelMoistureCode.wetting 17 42 0 85 = 0 := by
  unfold FineFuelMoistureCode.wetting
  rw [mo_ref]
  exact eeLt_of_ge (le_trans Ew_ub (by norm_num))

theorem no_change_ref : FineFuelMoistureCode.no_change 17 42 0 85 = 0 := by
  unfold FineFuelMoistureCode.no_change
  rw [drying_ref, wetting_ref]
  norm_num [eeNot]

theorem log042_lb : (-0.867502 : ℝ) ≤ Real.log ((42 : ℝ) / 100) :=
  log_lb_of_exp (by norm_num) exJ (by norm_num)

theorem log042_ub : Real.log ((42 : ℝ) / 100) ≤ -0.8675 :=
  log_ub_of_exp (by norm_num) exK (by norm_num)

theorem p3_lb : (0.228834974641 : ℝ) ≤ ((42 : ℝ) / 100) ^ (1.7 : ℝ) :=
  le_rpow_of_exp_lb (by norm_num) (by nlinarith [log042_lb]) exL

theorem p3_ub : ((42 : ℝ) / 100) ^ (1.7 : ℝ) ≤ 0.228836083544 :=
  rpow_le_of_exp_ub (by norm_num) (by nlinarith [log042_ub]) exM

/-- 25 to the one half is 5. -/
theorem sqrt25 : (25 : ℝ) ^ (0.5 : ℝ) = 5 := by
  rw [show (25 : ℝ) = (5 : ℝ) ^ ((2 : ℕ) : ℝ) by rw [Real.rpow_natCast]; norm_num,
    ← Real.rpow_mul (by norm_num : (0 : ℝ) ≤ 5),
    show (((2 : ℕ) : ℝ) * (0.5 : ℝ)) = 1 by norm_num, Real.rpow_one]

/-- Bounds on the FFMC log drying rate factor at the reference weather. -/
theorem k0_bounds : (0.6736375125 : ℝ) ≤ FineFuelMoistureCode.k_0 42 25 ∧
    FineFuelMoistureCode.k_0 42 25 ≤ 0.6736379828 := by
  unfold FineFuelMoistureCode.k_0
  rw [sqrt25, show ((42 : ℝ) / 100) ^ (8 : ℕ) = 0.0009682651996416 by norm_num]
  constructor
  · nlinarith [p3_ub]
  · nlinarith [p3_lb]

/-- Bounds on the FFMC log drying rate at the reference weather. -/
theorem kd_bounds : (0.727917299 : ℝ) ≤ FineFuelMoistureCode.k_d 17 42 25 ∧
    FineFuelMoistureCode.k_d 17 42 25 ≤ 0.727918075 := by
  unfold FineFuelMoistureCode.k_d
  rw [show (0.0365 * (17 : ℝ)) = (0.6205 : ℝ) by norm_num]
  constructor
  · nlinarith [k0_bounds.1, k0_bounds.2, exN, exO]
  · nlinarith [k0_bounds.1, k0_bounds.2, exN, exO]

theorem log10_lb : (2.302584 : ℝ) ≤ Real.log 10 :=
  log_lb_of_exp (by norm_num) exP (by norm_num)

theorem log10_ub : Real.log 10 ≤ 2.302587 :=
  log_ub_of_exp (by norm_num) exQ (by norm_num)

/-- Bounds on 10 to the reference log drying rate. -/
theorem d10_lb : (5.3446193835 : ℝ) ≤ (10 : ℝ) ^ FineFuelMoistureCode.k_d 17 42 25 :=
  le_rpow_of_exp_lb (by norm_num)
    (by nlinarith [log10_lb, log10_ub, kd_bounds.1, kd_bounds.2]) exR

theorem d10_ub : (10 : ℝ) ^ FineFuelMoistureCode.k_d 17 42 25 ≤ 5.3446441199 :=
  rpow_le_of_exp_ub (by norm_num)
    (by nlinarith [log10_lb, log10_ub, kd_bounds.1, kd_bounds.2]) exS

/-- Bounds on the reference blended moisture after drying. -/
theorem m_ref_bounds : (13.3605402 : ℝ) ≤ FineFuelMoistureCode.m 17 42 25 0 85 ∧
    FineFuelMoistureCode.m 17 42 25 0 85 ≤ 13.36075636 := by
  unfold FineFuelMoistureCode.m FineFuelMoistureCode.m_drying
    FineFuelMoistureCode.m_wetting FineFuelMoistureCode.m_no_change
  rw [drying_ref, wetting_ref, no_change_ref, mo_ref]
  have hEd := Ed_bounds
  have h10a := d10_lb
  have h10b := d10_ub
  have hpos : (0 : ℝ) < (10 : ℝ) ^ FineFuelMoistureCode.k_d 17 42 25 :=
    lt_of_lt_of_le (by norm_num) h10a
  constructor
  · have hq : ((23552 : ℝ) / 1445 - 12.68442898) / 5.3446441199 ≤
        (23552 / 1445 - FineFuelMoistureCode.E_d 17 42) /
          (10 : ℝ) ^ FineFuelMoistureCode.k_d 17 42 25 :=
      div_le_div₀ (by linarith [hEd.2]) (by linarith [hEd.2]) hpos h10b
    nlinarith [hEd.1, hq]
  · have hq : (23552 / 1445 - FineFuelMoistureCode.E_d 17 42) /
        (10 : ℝ) ^ FineFuelMoistureCode.k_d 17 42 25 ≤
        ((23552 : ℝ) / 1445 - 12.68424953) / 5.3446193835 :=
      div_le_div₀ (by norm_num) (by linarith [hEd.1]) (by norm_num) h10a
    nlinarith [hEd.2, hq]

/-- Certified bounds on the reference FFMC output. -/
theorem ffmc_ref_bounds :
    (87.6928791 : ℝ) ≤ FineFuelMoistureCode.ffmc 17 42 25 0 85 ∧
    FineFuelMoistureCode.ffmc 17 42 25 0 85 ≤ 87.69307727 := by
  have hm := m_ref_bounds
  unfold FineFuelMoistureCode.ffmc
  have hval_lb : (87.6928791 : ℝ) ≤
      59.5 * (250.0 - FineFuelMoistureCode.m 17 42 25 0 85) /
        (147.2 + FineFuelMoistureCode.m 17 42 25 0 85) := by
    have hq : (59.5 : ℝ) * (250.0 - 13.36075636) / (147.2 + 13.36075636) ≤
        59.5 * (250.0 - FineFuelMoistureCode.m 17 42 25 0 85) /
          (147.2 + FineFuelMoistureCode.m 17 42 25 0 85) :=
      div_le_div₀ (by nlinarith [hm.2]) (by nlinarith [hm.2]) (by linarith [hm.1])
        (by linarith [hm.2])
    linarith [hq, show (87.6928791 : ℝ) ≤
      59.5 * (250.0 - 13.36075636) / (147.2 + 13.36075636) by norm_num]
  have hval_ub : 59.5 * (250.0 - FineFuelMoistureCode.m 17 42 25 0 85) /
      (147.2 + FineFuelMoistureCode.m 17 42 25 0 85) ≤ 87.69307727 := by
    have hq : 59.5 * (250.0 - FineFuelMoistureCode.m 17 42 25 0 85) /
        (147.2 + FineFuelMoistureCode.m 17 42 25 0 85) ≤
        (59.5 : ℝ) * (250.0 - 13.3605402) / (147.2 + 13.3605402) :=
      div_le_div₀ (by norm_num) (by nlinarith [hm.1]) (by norm_num)
        (by linarith [hm.1])
    linarith [hq, show (59.5 : ℝ) * (250.0 - 13.3605402) / (147.2 + 13.3605402) ≤
      87.69307727 by norm_num]
  constructor
  · exact le_min hval_lb (by norm_num)
  · exact le_trans (min_le_left _ _) hval_ub

/-- Exact reference DMC: with zero rain the raining phase passes 6 through
and the equatorial drying term is rational. -/
theorem ref_dmc_eval : DuffMoistureCode.dmc 17 42 0 6 9.0 = 7.78948908 := by
  unfold DuffMoistureCode.dmc DuffMoistureCode.P_prev DuffMoistureCode.P_r
    DuffMoistureCode.P_n DuffMoistureCode.negligible DuffMoistureCode.K
    DuffMoistureCode.log_drying_rate
  have hm : DuffMoistureCode.rain_mask 0 = 0 := by
    unfold DuffMoistureCode.rain_mask
    exact eeGt_of_le (by norm_num)
  rw [hm, eeNot_zero, eeGt_of_lt (show (-1.1 : ℝ) < 17 by norm_num), eeNot_one]
  norm_num

/-- Exact reference DC: with zero rain the raining phase passes 15 through
and the warm-branch drying term is rational. -/
theorem ref_dc_eval : DroughtCode.dc 17 0 15 1.39 = 19.259 := by
  unfold DroughtCode.dc DroughtCode.D_prev DroughtCode.D_rain
    DroughtCode.D_negligible DroughtCode.negligible DroughtCode.V
    DroughtCode.V_d DroughtCode.V_n DroughtCode.drying_phase
  have hm : DroughtCode.rain_mask 0 = 0 := by
    unfold DroughtCode.rain_mask
    exact eeGt_of_le (by norm_num)
  rw [hm, eeNot_zero, eeGt_of_lt (show (-2.8 : ℝ) < 17 by norm_num), eeNot_one]
  norm_num

/-- Certified ISI bounds for any FFMC value in the certified reference
range. -/
theorem isi_ref_bounds (f : ℝ) (h1 : (87.6928791 : ℝ) ≤ f)
    (h2 : f ≤ 87.69307727) :
    (10.85346809 : ℝ) ≤ InitialSpreadIndex.isi 25 f ∧
    InitialSpreadIndex.isi 25 f ≤ 10.85384107 := by
  have hm1 : (13.30754857 : ℝ) ≤ InitialSpreadIndex.m f := by
    have hq : (147.2 : ℝ) * (101.0 - 87.69307727) / (59.5 + 87.69307727) ≤
        147.2 * (101.0 - f) / (59.5 + f) :=
      div_le_div₀ (by nlinarith) (by nlinarith) (by linarith) (by linarith)
    have : (13.30754857 : ℝ) ≤
        (147.2 : ℝ) * (101.0 - 87.69307727) / (59.5 + 87.69307727) := by norm_num
    unfold InitialSpreadIndex.m
    linarith
  have hm2 : InitialSpreadIndex.m f ≤ 13.30776468 := by
    have hq : (147.2 : ℝ) * (101.0 - f) / (59.5 + f) ≤
        147.2 * (101.0 - 87.6928791) / (59.5 + 87.6928791) :=
      div_le_div₀ (by norm_num) (by nlinarith) (by norm_num) (by linarith)
    have : (147.2 : ℝ) * (101.0 - 87.6928791) / (59.5 + 87.6928791) ≤
        13.30776468 := by norm_num
    unfold InitialSpreadIndex.m
    linarith
  have hmpos : (0 : ℝ) < InitialSpreadIndex.m f :=
    lt_of_lt_of_le (by norm_num) hm1
  have hlm1 : (2.5883294 : ℝ) ≤ Real.log (InitialSpreadIndex.m f) :=
    log_lb_of_exp hmpos exV (le_trans (by norm_num) hm1)
  have hlm2 : Real.log (InitialSpreadIndex.m f) ≤ 2.5883497 :=
    log_ub_of_exp hmpos exW (le_trans hm2 (by norm_num))
  have hm5a : (931010.544759 : ℝ) ≤ InitialSpreadIndex.m f ^ (5.31 : ℝ) :=
    le_rpow_of_exp_lb hmpos (by nlinarith [hlm1]) exX
  have hm5b : InitialSpreadIndex.m f ^ (5.31 : ℝ) ≤ 931115.754819 :=
    rpow_le_of_exp_ub hmpos (by nlinarith [hlm2]) exY
  have hef1 : (0.158111107133 : ℝ) ≤ Real.exp (-0.1386 * InitialSpreadIndex.m f) :=
    le_trans exZ (Real.exp_le_exp.mpr (by nlinarith [hm2]))
  have hef2 : Real.exp (-0.1386 * InitialSpreadIndex.m f) ≤ 0.158116093836 :=
    le_trans (Real.exp_le_exp.mpr (by nlinarith [hm1])) exAA
  have hff1 : (14.80481167 : ℝ) ≤ InitialSpreadIndex.f_F f := by
    unfold InitialSpreadIndex.f_F
    rw [show ((4.93 : ℝ) * 10000000) = 49300000 by norm_num]
    nlinarith [hef1, hef2, hm5a, hm5b]
  have hff2 : InitialSpreadIndex.f_F f ≤ 14.80530962 := by
    unfold InitialSpreadIndex.f_F
    rw [show ((4.93 : ℝ) * 10000000) = 49300000 by norm_num]
    nlinarith [hef1, hef2, hm5a, hm5b]
  have hfw1 : (3.52453893028 : ℝ) ≤ InitialSpreadIndex.f_Wind 25 := by
    unfold InitialSpreadIndex.f_Wind
    rw [show (0.05039 * (25 : ℝ)) = (1.25975 : ℝ) by norm_num]
    exact exT
  have hfw2 : InitialSpreadIndex.f_Wind 25 ≤ 3.52454150278 := by
    unfold InitialSpreadIndex.f_Wind
    rw [show (0.05039 * (25 : ℝ)) = (1.25975 : ℝ) by norm_num]
    exact exU
  unfold InitialSpreadIndex.isi
  constructor
  · nlinarith [hff1, hff2, hfw1, hfw2]
  · nlinarith [hff1, hff2, hfw1, hfw2]

/-- Certified bounds on the reference BUI. -/
theorem bui_ref_bounds :
    (7.784298486 : ℝ) ≤ BuildupIndex.bui 7.78948908 19.259 ∧
    BuildupIndex.bui 7.78948908 19.259 ≤ 7.784298488 := by
  have hcond : BuildupIndex.cond 7.78948908 19.259 = 0 := by
    unfold BuildupIndex.cond
    exact eeLe_of_gt (by norm_num)
  have hlb0 : (-2.4213687 : ℝ) ≤ Real.log (0.0114 * 7.78948908) :=
    log_lb_of_exp (by norm_num) exAB (by norm_num)
  have hub0 : Real.log (0.0114 * 7.78948908) ≤ -2.4213646 :=
    log_ub_of_exp (by norm_num) exAC (by norm_num)
  have hg1 : (0.0163042513461 : ℝ) ≤ ((0.0114 : ℝ) * 7.78948908) ^ (1.7 : ℝ) :=
    le_rpow_of_exp_lb (by norm_num) (by nlinarith [hlb0]) exAD
  have hg2 : ((0.0114 : ℝ) * 7.78948908) ^ (1.7 : ℝ) ≤ 0.0163044493402 :=
    rpow_le_of_exp_ub (by norm_num) (by nlinarith [hub0]) exAE
  unfold BuildupIndex.bui BuildupIndex.B_1 BuildupIndex.B_2
  rw [hcond, eeNot_zero]
  constructor
  · nlinarith [hg1, hg2]
  · nlinarith [hg1, hg2]

set_option maxHeartbeats 2000000 in
/-- Certified FWI bounds for any ISI and BUI values in the certified
reference ranges. -/
theorem fwi_ref_bounds (I Bu : ℝ) (hI1 : (10.85346809 : ℝ) ≤ I)
    (hI2 : I ≤ 10.85384107) (hB1 : (7.784298486 : ℝ) ≤ Bu)
    (hB2 : Bu ≤ 7.784298488) :
    (9.72829180188 : ℝ) ≤ FireWeatherIndex.fwi I Bu ∧
    FireWeatherIndex.fwi I Bu ≤ 9.72870686928 := by
  have hBupos : (0 : ℝ) < Bu := lt_of_lt_of_le (by norm_num) hB1
  have hmask : eeGt Bu 80 = 0 := eeGt_of_le (by linarith)
  have hlbui1 : (2.0521066 : ℝ) ≤ Real.log Bu :=
    log_lb_of_exp hBupos exAF (le_trans (by norm_num) hB1)
  have hlbui2 : Real.log Bu ≤ 2.0521107 :=
    log_ub_of_exp hBupos exAG (le_trans hB2 (by norm_num))
  have hp8a : (5.26012004513 : ℝ) ≤ Bu ^ (0.809 : ℝ) :=
    le_rpow_of_exp_lb hBupos (by nlinarith [hlbui1]) exAH
  have hp8b : Bu ^ (0.809 : ℝ) ≤ 5.2601409661 :=
    rpow_le_of_exp_ub hBupos (by nlinarith [hlbui2]) exAI
  have hfd1 : (5.292835148 : ℝ) ≤ FireWeatherIndex.fD Bu := by
    unfold FireWeatherIndex.fD FireWeatherIndex.normal_fD
    rw [hmask, eeNot_zero]
    nlinarith [hp8a]
  have hfd2 : FireWeatherIndex.fD Bu ≤ 5.292848245 := by
    unfold FireWeatherIndex.fD FireWeatherIndex.normal_fD
    rw [hmask, eeNot_zero]
    nlinarith [hp8b]
  have hBv1 : (5.744561738 : ℝ) ≤ FireWeatherIndex.B I Bu := by
    unfold FireWeatherIndex.B
    nlinarith [hfd1, hfd2, hI1, hI2]
  have hBv2 : FireWeatherIndex.B I Bu ≤ 5.744773366 := by
    unfold FireWeatherIndex.B
    nlinarith [hfd1, hfd2, hI1, hI2]
  have hBpos : (0 : ℝ) < FireWeatherIndex.B I Bu :=
    lt_of_lt_of_le (by norm_num) hBv1
  have hgt : eeGt (FireWeatherIndex.B I Bu) 1.0 = 1 :=
    eeGt_of_lt (lt_of_lt_of_le (by norm_num) hBv1)
  have hlB1 : (1.7482516 : ℝ) ≤ Real.log (FireWeatherIndex.B I Bu) :=
    log_lb_of_exp hBpos exAJ (le_trans (by norm_num) hBv1)
  have hlB2 : Real.log (FireWeatherIndex.B I Bu) ≤ 1.7482925 :=
    log_ub_of_exp hBpos exAK (le_trans hBv2 (by norm_num))
  have hypos : (0 : ℝ) < 0.434 * Real.log (FireWeatherIndex.B I Bu) := by
    nlinarith [hlB1]
  have hly1 : (-0.2760966 : ℝ) ≤
      Real.log (0.434 * Real.log (FireWeatherIndex.B I Bu)) :=
    log_lb_of_exp hypos exAL (by nlinarith [hlB1])
  have hly2 : Real.log (0.434 * Real.log (FireWeatherIndex.B I Bu)) ≤
      -0.2760691 :=
    log_ub_of_exp hypos exAM (by nlinarith [hlB2])
  have hp6a : (0.836411426765 : ℝ) ≤
      (0.434 * Real.log (FireWeatherIndex.B I Bu)) ^ (0.647 : ℝ) :=
    le_rpow_of_exp_lb hypos (by nlinarith [hly1]) exAN
  have hp6b : (0.434 * Real.log (FireWeatherIndex.B I Bu)) ^ (0.647 : ℝ) ≤
      0.836426558751 :=
    rpow_le_of_exp_ub hypos (by nlinarith [hly2]) exAO
  unfold FireWeatherIndex.fwi FireWeatherIndex.fwi_s_val FireWeatherIndex.fwi_b_val
  rw [hgt, eeNot_one]
  constructor
  · have h1 : (2.27503908 : ℝ) ≤
        2.72 * (0.434 * Real.log (FireWeatherIndex.B I Bu)) ^ (0.647 : ℝ) := by
      nlinarith [hp6a]
    have h2 := le_trans exAP (Real.exp_le_exp.mpr h1)
    nlinarith [h2]
  · have h1 : 2.72 * (0.434 * Real.log (FireWeatherIndex.B I Bu)) ^ (0.647 : ℝ) ≤
        2.27508024 := by
      nlinarith [hp6b]
    have h2 := le_trans (Real.exp_le_exp.mpr h1) exAQ
    nlinarith [h2]

/-- The reference compute succeeds and refOut is its result state. -/
theorem refCompute_ok : FWICalculator.compute refEngine = Except.ok refOut := rfl

theorem refOut_ffmc_val (p : Px) :
    getImg refOut.ffmc p = FineFuelMoistureCode.ffmc 17 42 25 0 85 := rfl

theorem refOut_dmc_val (p : Px) :
    getImg refOut.dmc p = DuffMoistureCode.dmc 17 42 0 6 9.0 := rfl

theorem refOut_dc_val (p : Px) :
    getImg refOut.dc p = DroughtCode.dc 17 0 15 1.39 := rfl

theorem refOut_isi_val (p : Px) :
    getImg refOut.isi p =
      InitialSpreadIndex.isi 25 (FineFuelMoistureCode.ffmc 17 42 25 0 85) := rfl

theorem refOut_bui_val (p : Px) :
    getImg refOut.bui p =
      BuildupIndex.bui (DuffMoistureCode.dmc 17 42 0 6 9.0)
        (DroughtCode.dc 17 0 15 1.39) := rfl

theorem refOut_fwi_val (p : Px) :
    getImg refOut.fwi p =
      FireWeatherIndex.fwi
        (InitialSpreadIndex.isi 25 (FineFuelMoistureCode.ffmc 17 42 25 0 85))
        (BuildupIndex.bui (DuffMoistureCode.dmc 17 42 0 6 9.0)
          (DroughtCode.dc 17 0 15 1.39)) := rfl

/-- C1 counterexample: at the reference constant inputs with the
constructor-default equatorial mode, the advanced state does not reproduce
the claimed DMC of 8.5 (or DC of 19.0, BUI of 8.2, FWI of 10.9): already
the DMC conjunct fails at the concrete pixel (0, 0), where the computed
DMC is exactly 7.78948908. -/
theorem c1_counterexample :
    FWICalculator.compute refEngine = Except.ok refOut ∧
    ¬ (|getImg refOut.ffmc (((0 : ℝ), (0 : ℝ)) : Px) - 87.7| ≤ 0.1 ∧
      |getImg refOut.dmc (((0 : ℝ), (0 : ℝ)) : Px) - 8.5| ≤ 0.1 ∧
      |getImg refOut.dc (((0 : ℝ), (0 : ℝ)) : Px) - 19.0| ≤ 0.1 ∧
      |getImg refOut.isi (((0 : ℝ), (0 : ℝ)) : Px) - 10.9| ≤ 0.1 ∧
      |getImg refOut.bui (((0 : ℝ), (0 : ℝ)) : Px) - 8.2| ≤ 0.1 ∧
      |getImg refOut.fwi (((0 : ℝ), (0 : ℝ)) : Px) - 10.9| ≤ 0.1) := by
  refine ⟨refCompute_ok, ?_⟩
  intro h
  have h2 := h.2.1
  rw [refOut_dmc_val, ref_dmc_eval, abs_le] at h2
  linarith [h2.1]

/-- C1 amended: with the constructor-default equatorial mode the reference
advance yields, at every pixel, FFMC within 1e-1 of 87.7, DMC of 7.8, DC of
19.3, ISI of 10.9, BUI of 7.8 and FWI of 9.7. -/
theorem c1_amended :
    FWICalculator.compute refEngine = Except.ok refOut ∧
    ∀ p : Px,
      |getImg refOut.ffmc p - 87.7| ≤ 0.1 ∧ |getImg refOut.dmc p - 7.8| ≤ 0.1 ∧
      |getImg refOut.dc p - 19.3| ≤ 0.1 ∧ |getImg refOut.isi p - 10.9| ≤ 0.1 ∧
      |getImg refOut.bui p - 7.8| ≤ 0.1 ∧ |getImg refOut.fwi p - 9.7| ≤ 0.1 := by
  refine ⟨refCompute_ok, fun p => ?_⟩
  rw [refOut_ffmc_val, refOut_dmc_val, refOut_dc_val, refOut_isi_val,
    refOut_bui_val, refOut_fwi_val, ref_dmc_eval, ref_dc_eval]
  have hffmc := ffmc_ref_bounds
  have hisi := isi_ref_bounds _ hffmc.1 hffmc.2
  have hbui := bui_ref_bounds
  have hfwi := fwi_ref_bounds _ _ hisi.1 hisi.2 hbui.1 hbui.2
  refine ⟨?_, ?_, ?_, ?_, ?_, ?_⟩ <;> rw [abs_le] <;> constructor
  · linarith [hffmc.1]
  · linarith [hffmc.2]
  · norm_num
  · norm_num
  · norm_num
  · norm_num
  · linarith [hisi.1]
  · linarith [hisi.2]
  · linarith [hbui.1]
  · linarith [hbui.2]
  · linarith [hfwi.1]
  · linarith [hfwi.2]

end GeeFwi
